import Mathlib

/-!
Shallow embedding of the GeterosisPlayblast capture-and-encode engine
(src/GSPlayblast.py, class GeterosisPlayblast).  The Maya host is modelled
as an explicit state record; every host call made by the engine is either a
pure read of that record or an explicit mutation event.  Fallible Python
code (raised exceptions) is modelled with Option / an explicit outcome.
-/

namespace GSPlayblast

/-- The observable state of the Maya host that the engine reads or mutates:
existing cameras, the focused viewport and its camera, per-flag viewport
visibility, per-camera overscan, render and playback settings, the time
unit, the file system, project and scene context, the timeline sound node,
and two behaviour switches standing for the nondeterministic outcomes of
cmds.playblast (raises or not) and QDir.rmdir (fails or not). -/
structure MayaState where
  cameras : List String
  viewportActive : Bool
  activeCamera : String
  visFlag : String → Bool
  overscan : String → ℚ
  renderWidth : Int
  renderHeight : Int
  renderStart : Int
  renderEnd : Int
  playbackMin : Int
  playbackMax : Int
  animStart : Int
  animEnd : Int
  timeUnit : String
  fileExists : String → Bool
  isDir : String → Bool
  projectDir : String
  sceneName : String
  soundNode : Option (String × ℚ)
  playblastRaises : Bool
  rmdirFails : Bool

/-- The configuration fields of a GeterosisPlayblast instance, one field per
Python attribute of the same name. -/
structure PBState where
  ffmpegPath : String
  cameraField : Option String
  resolutionPresetField : Option String
  widthHeight : Int × Int
  frameRangePresetField : Option String
  startFrame : Int
  endFrame : Int
  visibilityField : List Bool
  containerFormat : String
  encoderField : String
  h264Quality : String
  h264PresetField : String
  imageQuality : Int
  deriving DecidableEq

/-- The options dictionary passed to cmds.playblast, field for field. -/
structure PlayblastOptions where
  filename : String
  widthHeight : Int × Int
  percent : Int
  startTime : Int
  endTime : Int
  clearCache : Bool
  forceOverwrite : Bool
  format : String
  compression : String
  quality : Int
  indexFromZero : Bool
  framePadding : Int
  showOrnaments : Bool
  viewer : Bool
  deriving DecidableEq

/-- The ffmpeg invocation built by Encodeh264, structured: executable,
input framerate and frame pattern, optional (seek offset, audio path),
crf value, speed preset name, output path. -/
structure FfmpegCommand where
  exe : String
  framerate : ℚ
  input : String
  audio : Option (ℚ × String)
  crf : Int
  speed : String
  output : String
  deriving DecidableEq

/-- An externally visible action of the engine: a host mutation, a call of
an external primitive, or a line on the log stream. -/
inductive Event where
  | setActiveCamera (c : String)
  | setViewportVisibility (flags : List (String × Bool))
  | setOverscan (cam : String) (v : ℚ)
  | playblastCall (opts : PlayblastOptions)
  | ffmpegRun (cmd : FfmpegCommand)
  | removeTempDir (dir : String)
  | openViewer (path : String)
  | logError (msg : String)
  | logWarning (msg : String)
  | logOutput (msg : String)
  deriving DecidableEq

/-- Whether execute returned normally or let a Python exception escape. -/
inductive ExecOutcome where
  | returned
  | raised
  deriving DecidableEq

/-- The result of one execute call: the final host state, the ordered
trace of events, and whether an exception escaped. -/
structure ExecResult where
  host : MayaState
  trace : List Event
  outcome : ExecOutcome

/-! ### Class-level lookup tables -/

/-- The keys of RESOLUTION_LOOKUP. -/
def RESOLUTION_LOOKUP_KEYS : List String := ["Render", "HD 1080", "HD 720", "HD 540"]

/-- FRAME_RANGE_PRESETS. -/
def FRAME_RANGE_PRESETS : List String := ["Render", "Playback", "Animation"]

/-- VIDEO_ENCODER_LOOKUP. -/
def VIDEO_ENCODER_LOOKUP : List (String × List String) :=
  [("mov", ["h264"]), ("mp4", ["h264"]), ("Image", ["jpg", "png", "tif"])]

/-- H264_QUALITIES. -/
def H264_QUALITIES : List (String × Int) :=
  [("Very High", 18), ("High", 20), ("Medium", 23), ("Low", 26)]

/-- H264_PRESETS. -/
def H264_PRESETS : List String :=
  ["veryslow", "slow", "medium", "fast", "faster", "ultrafast"]

/-- VIEWPORT_VISIBILITY_LOOKUP: 37 pairs of display name and modelEditor
flag name, in source order. -/
def VIEWPORT_VISIBILITY_LOOKUP : List (String × String) :=
  [("Controllers", "controllers"),
   ("NURBS Curves", "nurbsCurves"),
   ("NURBS Surfaces", "nurbsSurfaces"),
   ("NURBS CVs", "cv"),
   ("NURBS Hulls", "hulls"),
   ("Polygons", "polymeshes"),
   ("Subdiv Surfaces", "subdivSurfaces"),
   ("Planes", "planes"),
   ("Lights", "lights"),
   ("Cameras", "cameras"),
   ("Image Planes", "imagePlane"),
   ("Joints", "joints"),
   ("IK Handles", "ikHandles"),
   ("Deformers", "deformers"),
   ("Dynamics", "dynamics"),
   ("Particle Instancers", "particleInstancers"),
   ("Fluids", "fluids"),
   ("Hair Systems", "hairSystems"),
   ("Follicles", "follicles"),
   ("nCloths", "nCloths"),
   ("nParticles", "nParticles"),
   ("nRigids", "nRigids"),
   ("Dynamic Constraints", "dynamicConstraints"),
   ("Locators", "locators"),
   ("Dimensions", "dimensions"),
   ("Pivots", "pivots"),
   ("Handles", "handles"),
   ("Texture Placements", "textures"),
   ("Strokes", "strokes"),
   ("Motion Trails", "motionTrails"),
   ("Plugin Shapes", "pluginShapes"),
   ("Clip Ghosts", "clipGhosts"),
   ("Grease Pencil", "greasePencils"),
   ("Grid", "grid"),
   ("HUD", "hud"),
   ("Hold-Outs", "hos"),
   ("Selection Highlighting", "sel")]

/-- VIEWPORT_VISIBILITY_PRESETS. -/
def VIEWPORT_VISIBILITY_PRESETS : List (String × List String) :=
  [("Viewport", []),
   ("Geo", ["NURBS Surfaces", "Polygons"]),
   ("Dynamics", ["NURBS Surfaces", "Polygons", "Dynamics", "Fluids", "nParticles"])]

/-- DEFAULT_PADDING. -/
def DEFAULT_PADDING : Int := 4

/-! ### Settings resolver: resolution -/

/-- The Python argument of SetResolution: a string (preset name), a pair of
ints, a pair whose members are not both ints, or a value that is neither a
string nor subscriptable as a pair. -/
inductive ResolutionInput where
  | presetName (s : String)
  | pair (w h : Int)
  | pairNonInt
  | badValue
  deriving DecidableEq

/-- PresetToResolution: "Render" queries the live render settings; the
other presets are fixed; any other string raises (modelled as none). -/
def PresetToResolution (h : MayaState) (p : String) : Option (Int × Int) :=
  if p = "Render" then some (h.renderWidth, h.renderHeight)
  else if p = "HD 1080" then some (1920, 1080)
  else if p = "HD 720" then some (1280, 720)
  else if p = "HD 540" then some (960, 540)
  else none

/-- SetResolution.  Mirrors the source: the stored preset is cleared first,
then the input is resolved (a recognized preset also re-stores its name),
then validated; on any validation failure the method logs an error and
returns without touching the stored width/height pair. -/
def SetResolution (h : MayaState) (st : PBState) (res : ResolutionInput) :
    PBState × List Event :=
  let st1 := { st with resolutionPresetField := none }
  match res with
  | .presetName s =>
    match PresetToResolution h s with
    | some wh =>
      let st2 := { st1 with resolutionPresetField := some s }
      if wh.1 ≤ 0 ∨ wh.2 ≤ 0 then
        (st2, [.logError "Invalid resolution. Values must be greater than zero."])
      else ({ st2 with widthHeight := wh }, [])
    | none =>
      (st1, [.logError "Invalid resoluton. Expected one of [int, int], presets"])
  | .pair w hh =>
    if w ≤ 0 ∨ hh ≤ 0 then
      (st1, [.logError "Invalid resolution. Values must be greater than zero."])
    else ({ st1 with widthHeight := (w, hh) }, [])
  | .pairNonInt =>
    (st1, [.logError "Invalid resoluton. Expected one of [int, int], presets"])
  | .badValue =>
    (st1, [.logError "Invalid resoluton. Expected one of [int, int], presets"])

/-- GetResolutionWidthHeight: a stored preset is resolved now against the
live host; otherwise the stored explicit pair is returned.  none models the
RuntimeError raised if an unrecognized preset were stored. -/
def GetResolutionWidthHeight (h : MayaState) (st : PBState) : Option (Int × Int) :=
  match st.resolutionPresetField with
  | some p => PresetToResolution h p
  | none => some st.widthHeight

/-! ### Settings resolver: frame range -/

/-- The Python argument of SetFrameRange: a list/tuple pair, a string, or
anything else. -/
inductive FrameRangeInput where
  | presetName (s : String)
  | pair (a b : Int)
  | badValue
  deriving DecidableEq

/-- PresetToFrameRange over the live host; an unrecognized name raises
(modelled as none). -/
def PresetToFrameRange (h : MayaState) (p : String) : Option (Int × Int) :=
  if p = "Render" then some (h.renderStart, h.renderEnd)
  else if p = "Playback" then some (h.playbackMin, h.playbackMax)
  else if p = "Animation" then some (h.animStart, h.animEnd)
  else none

/-- ResolveFrameRange: pairs pass through; strings go through the preset
table; failures are caught and logged. -/
def ResolveFrameRange (h : MayaState) (fr : FrameRangeInput) :
    Option (Int × Int) × List Event :=
  match fr with
  | .pair a b => (some (a, b), [])
  | .presetName s =>
    match PresetToFrameRange h s with
    | some r => (some r, [])
    | none => (none, [.logError "Invalid frame range. Expected one of (start_frame, end_frame), presets"])
  | .badValue => (none, [.logError "Invalid frame range. Expected one of (start_frame, end_frame), presets"])

/-- SetFrameRange: on resolution failure the state is untouched; otherwise
the preset name is stored when the input was a preset, and the resolved
endpoints are stored. -/
def SetFrameRange (h : MayaState) (st : PBState) (fr : FrameRangeInput) :
    PBState × List Event :=
  match ResolveFrameRange h fr with
  | (none, logs) => (st, logs)
  | (some r, logs) =>
    let preset : Option String :=
      match fr with
      | .presetName s => if FRAME_RANGE_PRESETS.contains s then some s else none
      | _ => none
    ({ st with frameRangePresetField := preset, startFrame := r.1, endFrame := r.2 }, logs)

/-- GetStartEndFrame: a stored preset is resolved now against the live
host; otherwise the stored explicit endpoints are returned. -/
def GetStartEndFrame (h : MayaState) (st : PBState) : Option (Int × Int) :=
  match st.frameRangePresetField with
  | some p => PresetToFrameRange h p
  | none => some (st.startFrame, st.endFrame)

/-! ### Settings resolver: camera, visibility, encoding, quality -/

/-- SetCamera: a named camera that does not exist logs an error and the
stored camera is replaced by None; otherwise the argument is stored. -/
def SetCamera (h : MayaState) (st : PBState) (camera : Option String) :
    PBState × List Event :=
  match camera with
  | some c =>
    if h.cameras.contains c then ({ st with cameraField := some c }, [])
    else ({ st with cameraField := none }, [.logError ("Camera does not exist: " ++ c)])
  | none => ({ st with cameraField := none }, [])

/-- The Python argument of SetVisibility: a falsy value, a list/tuple of
booleans, or a preset name string. -/
inductive VisibilityInput where
  | presetName (s : String)
  | vector (v : List Bool)
  | emptyInput
  deriving DecidableEq

/-- PresetToVisibility: resolves a preset name to a boolean vector via the
category table; the "Viewport" preset has no names and yields []; an
unknown name logs an error and yields none. -/
def PresetToVisibility (p : String) : Option (List Bool) × List Event :=
  match VIEWPORT_VISIBILITY_PRESETS.find? (fun x => x.1 == p) with
  | none => (none, [.logError ("Invaild visibility preset: " ++ p)])
  | some pr =>
    if pr.2.isEmpty then (some [], [])
    else (some (VIEWPORT_VISIBILITY_LOOKUP.map (fun it => pr.2.contains it.1)), [])

/-- SetVisibility: falsy input stores []; a list/tuple is stored verbatim
(copied); a preset name is resolved first and an unknown name leaves the
state unchanged.  No length check is performed on explicit vectors. -/
def SetVisibility (st : PBState) (vd : VisibilityInput) : PBState × List Event :=
  match vd with
  | .emptyInput => ({ st with visibilityField := [] }, [])
  | .vector v => ({ st with visibilityField := v }, [])
  | .presetName s =>
    if s = "" then ({ st with visibilityField := [] }, [])
    else
      match PresetToVisibility s with
      | (none, logs) => (st, logs)
      | (some v, logs) => ({ st with visibilityField := v }, logs)

/-- GetViewportVisibility: queries the 37 modelEditor flags of the focused
viewport in table order; fails (none) when no viewport is active. -/
def GetViewportVisibility (h : MayaState) : Option (List Bool) :=
  if h.viewportActive then
    some (VIEWPORT_VISIBILITY_LOOKUP.map (fun it => h.visFlag it.2))
  else none

/-- GetVisibility: the stored vector when non-empty, else the live
viewport visibility. -/
def GetVisibility (h : MayaState) (st : PBState) : Option (List Bool) :=
  if st.visibilityField = [] then GetViewportVisibility h
  else some st.visibilityField

/-- The positional indexing loop of CreateViewportVisibilityFlags: walks
the lookup table consuming one data entry per category; running out of
data models the IndexError. -/
def CreateFlagsGo : List (String × String) → List Bool → Option (List (String × Bool))
  | [], _ => some []
  | _ :: _, [] => none
  | item :: rest, b :: bs =>
    match CreateFlagsGo rest bs with
    | none => none
    | some t => some ((item.2, b) :: t)

/-- CreateViewportVisibilityFlags: builds the flag-name → bool map for the
capture, indexing the data vector positionally over all 37 categories. -/
def CreateViewportVisibilityFlags (v : List Bool) : Option (List (String × Bool)) :=
  CreateFlagsGo VIEWPORT_VISIBILITY_LOOKUP v

/-- SetEncoding: the container must be a known key and the encoder must be
in its allowed list; otherwise an error is logged and nothing changes. -/
def SetEncoding (st : PBState) (container encoder : String) : PBState × List Event :=
  match VIDEO_ENCODER_LOOKUP.find? (fun x => x.1 == container) with
  | none => (st, [.logError ("Invalid container: " ++ container)])
  | some pr =>
    if pr.2.contains encoder then
      ({ st with containerFormat := container, encoderField := encoder }, [])
    else (st, [.logError ("Invalid encoder: " ++ encoder)])

/-- Seth264Settings: quality and preset must both be known names. -/
def Seth264Settings (st : PBState) (quality speed : String) : PBState × List Event :=
  if (H264_QUALITIES.map (fun x => x.1)).contains quality then
    if H264_PRESETS.contains speed then
      ({ st with h264Quality := quality, h264PresetField := speed }, [])
    else (st, [.logError ("Invalid h264 preset: " ++ speed)])
  else (st, [.logError ("Invalid h264 quality: " ++ quality)])

/-- SetImageSettings: quality must lie in 1..100. -/
def SetImageSettings (st : PBState) (quality : Int) : PBState × List Event :=
  if 0 < quality ∧ quality ≤ 100 then ({ st with imageQuality := quality }, [])
  else (st, [.logError "Invalid image quality. Expected value between 1-100"])

/-! ### Host mutations -/

/-- The effect on the viewport of cmds.modelEditor(e=True, flags): each
listed flag is assigned in order. -/
def applyFlags : List (String × Bool) → (String → Bool) → String → Bool
  | [], g => g
  | pr :: rest, g => applyFlags rest (fun n => if n = pr.1 then pr.2 else g n)

/-- The effect of lookThroughModelPanel. -/
def hostSetActiveCamera (h : MayaState) (c : String) : MayaState :=
  { h with activeCamera := c }

/-- The effect of SetViewportVisibility on the host. -/
def hostSetVisibility (h : MayaState) (flags : List (String × Bool)) : MayaState :=
  { h with visFlag := applyFlags flags h.visFlag }

/-- The effect of cmds.setAttr on a camera overscan attribute. -/
def hostSetOverscan (h : MayaState) (cam : String) (v : ℚ) : MayaState :=
  { h with overscan := fun n => if n = cam then v else h.overscan n }

/-! ### Ffmpeg validation, frame rate, audio, encode -/

/-- RequiresFfmpeg: every container other than "Image". -/
def RequiresFfmpeg (st : PBState) : Bool := st.containerFormat ≠ "Image"

/-- ValidateFfmpeg: the configured path must be non-empty, exist, and not
be a directory; each failure logs its own error. -/
def ValidateFfmpeg (h : MayaState) (st : PBState) : Bool × List Event :=
  if st.ffmpegPath = "" then
    (false, [.logError "ffmpeg executable path not set"])
  else if ¬ h.fileExists st.ffmpegPath then
    (false, [.logError ("ffmpeg executable path does not exist: " ++ st.ffmpegPath)])
  else if h.isDir st.ffmpegPath then
    (false, [.logError ("Invalid ffmpeg path: " ++ st.ffmpegPath)])
  else (true, [])

/-- Whether the first list is an initial segment of the second. -/
def headMatches : List Char → List Char → Bool
  | [], _ => true
  | _ :: _, [] => false
  | p :: ps, c :: cs => p == c && headMatches ps cs

/-- One left-to-right pass replacing each occurrence of the token by the
replacement, as Python str.replace does for a non-empty token; the fuel
is chosen larger than the text length so it never runs out. -/
def replaceGo (token repl : List Char) : Nat → List Char → List Char
  | 0, cs => cs
  | fuel + 1, cs =>
    match cs with
    | [] => []
    | c :: rest =>
      if headMatches token cs then repl ++ replaceGo token repl fuel (cs.drop token.length)
      else c :: replaceGo token repl fuel rest

/-- Python str.replace on whole strings. -/
def replaceToken (s token repl : String) : String :=
  ⟨replaceGo token.data repl.data (s.data.length + 1) s.data⟩

/-- The numeric value of a non-empty all-digit character list. -/
def digitsToNatGo : List Char → Nat → Option Nat
  | [], acc => some acc
  | c :: cs, acc =>
    if c.isDigit then digitsToNatGo cs (acc * 10 + (c.toNat - 48)) else none

/-- The numeric value of a digit string; none for an empty or non-digit
string. -/
def digitsToNat : List Char → Option Nat
  | [] => none
  | c :: cs => digitsToNatGo (c :: cs) 0

/-- Split a character list at every dot. -/
def splitOnDot : List Char → List (List Char)
  | [] => [[]]
  | c :: cs =>
    let r := splitOnDot cs
    if c == '.' then [] :: r
    else
      match r with
      | [] => [[c]]
      | g :: gs => (c :: g) :: gs

/-- A model of Python float() restricted to the plain decimal literals
that occur as Maya frame-rate prefixes ("23", "29.97"); none models
ValueError. -/
def parseFloatLit (s : String) : Option ℚ :=
  match splitOnDot s.data with
  | [a] => (digitsToNat a).map (fun n => (n : ℚ))
  | [a, b] =>
    match digitsToNat a, digitsToNat b with
    | some n, some m => some ((n : ℚ) + (m : ℚ) / (10 : ℚ) ^ b.length)
    | _, _ => none
  | _ => none

/-- Whether the unit string ends in "fps". -/
def endsWithFps (u : String) : Bool := headMatches ['s', 'p', 'f'] u.data.reverse

/-- The unit string with its last n characters removed. -/
def dropRightChars (u : String) (n : Nat) : String := ⟨u.data.take (u.data.length - n)⟩

/-- GetFrameRate: the fixed name table, then the "fps"-suffix literal
form; anything else raises RuntimeError (modelled as none, as is a
non-numeric prefix before "fps"). -/
def GetFrameRate (h : MayaState) : Option ℚ :=
  let u := h.timeUnit
  if u = "game" then some 15
  else if u = "film" then some 24
  else if u = "pal" then some 25
  else if u = "ntsc" then some 30
  else if u = "show" then some 48
  else if u = "palf" then some 50
  else if u = "ntscf" then some 60
  else if endsWithFps u then parseFloatLit (dropRightChars u 3)
  else none

/-- GetAudioAttributes: the timeline sound node is used only when its
referenced file exists on disk. -/
def GetAudioAttributes (h : MayaState) : Option (String × ℚ) :=
  match h.soundNode with
  | some pr => if h.fileExists pr.1 then some pr else none
  | none => none

/-- GetAudioOffsetInSec. -/
def GetAudioOffsetInSec (startFrame audioFrameOffset frameRate : ℚ) : ℚ :=
  (startFrame - audioFrameOffset) / frameRate

/-- The ffmpeg command assembled by Encodeh264 from the resolved frame
rate, the optional audio attributes with their seek offset, and the
stored quality and preset. -/
def ffmpegCmdOf (h : MayaState) (st : PBState) (sourcePath outputPath : String)
    (startFrame : Int) (fr : ℚ) (crf : Int) : FfmpegCommand :=
  { exe := st.ffmpegPath
    framerate := fr
    input := sourcePath
    audio := (GetAudioAttributes h).map
      (fun a => (GetAudioOffsetInSec (startFrame : ℚ) a.2 fr, a.1))
    crf := crf
    speed := st.h264PresetField
    output := outputPath }

/-- Encodeh264: resolve the frame rate, attach audio when available,
look up crf, and build the command.  none models the exceptions that
escape it: an unsupported time unit, a zero frame rate with audio
attached (ZeroDivisionError), or an unknown stored quality (KeyError). -/
def Encodeh264 (h : MayaState) (st : PBState) (sourcePath outputPath : String)
    (startFrame : Int) : Option (FfmpegCommand × List Event) :=
  match GetFrameRate h with
  | none => none
  | some fr =>
    if (GetAudioAttributes h).isSome ∧ fr = 0 then none
    else
      match H264_QUALITIES.find? (fun x => x.1 == st.h264Quality) with
      | none => none
      | some q =>
        some (ffmpegCmdOf h st sourcePath outputPath startFrame fr q.2,
          [.logOutput "ffmpeg command",
           .ffmpegRun (ffmpegCmdOf h st sourcePath outputPath startFrame fr q.2)])

/-- RemoveTempDir: removes the frame files and the directory; a failing
rmdir only logs a warning. -/
def RemoveTempDir (h : MayaState) (dirPath : String) : List Event :=
  [.removeTempDir dirPath] ++
    (if h.rmdirFails then [.logWarning ("Failed to remove temporary directory: " ++ dirPath)] else [])

/-- OpenInViewer: a missing file logs an error; otherwise the file is
opened externally (the quicktime and desktop-services branches are both
the single openViewer event). -/
def OpenInViewer (h : MayaState) (path : String) : List Event :=
  if h.fileExists path then [.openViewer path]
  else [.logError ("Failed to open in viewer. File does not exists: " ++ path)]

/-! ### Output path resolution -/

/-- The os.path.join / normpath combination, modelled as plain
slash-joining of the two opaque path strings. -/
def joinPath (a b : String) : String := a ++ "/" ++ b

/-- ResolveOutputDirectoryPath: substitutes the project token. -/
def ResolveOutputDirectoryPath (h : MayaState) (dirPath : String) : String :=
  replaceToken dirPath "{project}" h.projectDir

/-- ResolveOutputFilename: substitutes the scene token. -/
def ResolveOutputFilename (h : MayaState) (fileName : String) : String :=
  replaceToken fileName "{scene}" h.sceneName

/-- The arguments of execute, with the Python defaults. -/
structure ExecArgs where
  outputDir : String
  fileName : String
  padding : Int := 4
  overscanArg : Bool := false
  showOrnaments : Bool := true
  showInViewer : Bool := true
  overwrite : Bool := false
  deriving DecidableEq

/-- The padding actually used: non-positive padding falls back to the
default. -/
def effectivePadding (p : Int) : Int := if p ≤ 0 then DEFAULT_PADDING else p

/-- The resolved output directory of one execute call. -/
def resolvedDir (h : MayaState) (a : ExecArgs) : String :=
  ResolveOutputDirectoryPath h a.outputDir

/-- The resolved output file name of one execute call. -/
def resolvedFile (h : MayaState) (a : ExecArgs) : String :=
  ResolveOutputFilename h a.fileName

/-- The final container output path used in the ffmpeg branch. -/
def finalOutputPath (h : MayaState) (st : PBState) (a : ExecArgs) : String :=
  joinPath (resolvedDir h a) (resolvedFile h a ++ "." ++ st.containerFormat)

/-- The temporary frame directory of the ffmpeg branch. -/
def tempDirPath (h : MayaState) (a : ExecArgs) : String :=
  resolvedDir h a ++ "/playblast_temp"

/-- The ffmpeg source frame pattern. -/
def sourcePattern (h : MayaState) (a : ExecArgs) (padding : Int) : String :=
  tempDirPath h a ++ "/" ++ resolvedFile h a ++ ".%0" ++ toString padding ++ "d.png"

/-- The current viewport visibility vector, one entry per category. -/
def origVisList (h : MayaState) : List Bool :=
  VIEWPORT_VISIBILITY_LOOKUP.map (fun it => h.visFlag it.2)

/-! ### The capture bracket and the encode phase -/

/-- The mutate / capture / restore bracket of execute: switch the camera,
apply the capture visibility flags, neutralize overscan unless requested,
attempt cmds.playblast (which raises exactly when the host says so), and
in the finally block restore overscan, camera, and visibility.  Returns
the final host, the events in order, and the PlayblastFailed flag. -/
def mutateCaptureRestore (h : MayaState) (ov pbRaises : Bool) (cam origCam : String)
    (pbFlags originFlags : List (String × Bool)) (opts : PlayblastOptions) :
    MayaState × List Event × Bool :=
  let h1 := hostSetActiveCamera h cam
  let h2 := hostSetVisibility h1 pbFlags
  let origOverscan := h2.overscan cam
  let h3 := if ov then h2 else hostSetOverscan h2 cam 1
  let pbFailed := pbRaises
  let h4 := if ov then h3 else hostSetOverscan h3 cam origOverscan
  let h5 := hostSetActiveCamera h4 origCam
  let h6 := hostSetVisibility h5 originFlags
  let evs : List Event :=
    [.setActiveCamera cam, .setViewportVisibility pbFlags]
      ++ (if ov then [] else [.setOverscan cam 1])
      ++ [.playblastCall opts]
      ++ (if pbFailed then [.logError "Failed to create playblast. See script editor for details."] else [])
      ++ (if ov then [] else [.setOverscan cam origOverscan])
      ++ [.setActiveCamera origCam, .setViewportVisibility originFlags]
  (h6, evs, pbFailed)

/-- The post-capture phase of execute for a successful capture: in the
ffmpeg branch encode (h264 only; an unsupported stored encoder logs an
error), remove the temporary directory, and optionally open the result;
the direct-image branch does nothing further.  none components in the
outcome mark an escaping exception from Encodeh264. -/
def encodePhase (h : MayaState) (st : PBState) (a : ExecArgs)
    (outputPath pbOutputDir srcPattern : String) (startFrame : Int) :
    List Event × ExecOutcome :=
  if RequiresFfmpeg st then
    if st.encoderField = "h264" then
      match Encodeh264 h st srcPattern outputPath startFrame with
      | none => ([], .raised)
      | some pr =>
        let evs := pr.2 ++ RemoveTempDir h pbOutputDir
        if a.showInViewer then (evs ++ OpenInViewer h outputPath, .returned)
        else (evs, .returned)
    else
      ([.logError "Encoding failed. Unsupported encoder for container."] ++ RemoveTempDir h pbOutputDir,
        .returned)
  else ([], .returned)

/-! ### execute -/

/-- The playblast options assembled by execute from the capture-target
selection, the resolved resolution and frame range, and the arguments. -/
def optsOf (h : MayaState) (st : PBState) (a : ExecArgs) (wh se : Int × Int) :
    PlayblastOptions :=
  { filename :=
      if RequiresFfmpeg st then joinPath (tempDirPath h a) (resolvedFile h a)
      else joinPath (resolvedDir h a) (resolvedFile h a)
    widthHeight := wh
    percent := 100
    startTime := se.1
    endTime := se.2
    clearCache := true
    forceOverwrite := if RequiresFfmpeg st then true else a.overwrite
    format := "image"
    compression := if RequiresFfmpeg st then "png" else st.encoderField
    quality := if RequiresFfmpeg st then 100 else st.imageQuality
    indexFromZero := RequiresFfmpeg st
    framePadding := effectivePadding a.padding
    showOrnaments := a.showOrnaments
    viewer := if RequiresFfmpeg st then false else a.showInViewer }

/-- The tail of execute once every precondition has passed and both
visibility flag maps have been built: run the capture bracket, then, when
the capture succeeded, the encode / cleanup / viewer phase. -/
def capturedBody (h : MayaState) (st : PBState) (a : ExecArgs) (wh se : Int × Int)
    (cam : String) (originFlags pbFlags : List (String × Bool)) : ExecResult :=
  let r := mutateCaptureRestore h a.overscanArg h.playblastRaises cam h.activeCamera
    pbFlags originFlags (optsOf h st a wh se)
  if r.2.2 then
    { host := r.1, trace := .logOutput "Playblast options" :: r.2.1, outcome := .returned }
  else
    let enc := encodePhase r.1 st a (finalOutputPath h st a) (tempDirPath h a)
      (sourcePattern h a (effectivePadding a.padding)) se.1
    { host := r.1
      trace := .logOutput "Playblast options" :: (r.2.1 ++ enc.1)
      outcome := enc.2 }

/-- The execute entry point, translated check for check from the source:
ffmpeg precondition, active viewport, output directory and file name,
token resolution, padding fallback, overwrite check and capture-target
selection, resolution and frame-range resolution, options assembly,
camera resolution and existence check, the capture bracket, and the
encode / cleanup / viewer phase. -/
def execute (h : MayaState) (st : PBState) (a : ExecArgs) : ExecResult :=
  if RequiresFfmpeg st && !(ValidateFfmpeg h st).1 then
    { host := h
      trace := (ValidateFfmpeg h st).2
        ++ [.logError "Ffmpeg executable is not configured. See script editor for details."]
      outcome := .returned }
  else if !h.viewportActive then
    { host := h
      trace := [.logError "Failed to get active view.",
        .logError "An active viewport is not selected. Select a viewport and retry."]
      outcome := .returned }
  else if a.outputDir = "" then
    { host := h, trace := [.logError "Output directory path not set"], outcome := .returned }
  else if a.fileName = "" then
    { host := h, trace := [.logError "Output file name not set"], outcome := .returned }
  else
    -- token resolution and the padding fallback live in resolvedDir,
    -- resolvedFile and effectivePadding, used by the helpers below
    if RequiresFfmpeg st && !a.overwrite && h.fileExists (finalOutputPath h st a) then
      { host := h
        trace := [.logError "Output file already exists. Eanble overwrite to ignore."]
        outcome := .returned }
    else
      match GetResolutionWidthHeight h st, GetStartEndFrame h st with
      | some wh, some se =>
        -- the viewport is active here, so GetActiveCamera succeeds
        let cam := st.cameraField.getD h.activeCamera
        if !h.cameras.contains cam then
          { host := h
            trace := [.logOutput "Playblast options",
              .logError ("Camera does not exist: " ++ cam)]
            outcome := .returned }
        else
          let h1 := hostSetActiveCamera h cam
          match CreateViewportVisibilityFlags (origVisList h1) with
          | none =>
            { host := h1
              trace := [.logOutput "Playblast options", .setActiveCamera cam]
              outcome := .raised }
          | some originFlags =>
            let pbVis := if st.visibilityField = [] then origVisList h1 else st.visibilityField
            match CreateViewportVisibilityFlags pbVis with
            | none =>
              { host := h1
                trace := [.logOutput "Playblast options", .setActiveCamera cam]
                outcome := .raised }
            | some pbFlags => capturedBody h st a wh se cam originFlags pbFlags
      | _, _ =>
        -- an invalid stored preset raises out of the resolution getters
        { host := h, trace := [], outcome := .raised }

/-! ### Trace observations -/

/-- Whether an event mutates viewport state. -/
def Event.isViewportMutation : Event → Bool
  | .setActiveCamera _ => true
  | .setViewportVisibility _ => true
  | .setOverscan _ _ => true
  | _ => false

/-- Whether an event is a call of the host capture primitive. -/
def Event.isCaptureCall : Event → Bool
  | .playblastCall _ => true
  | _ => false

/-- Whether an event is an encoder subprocess run. -/
def Event.isEncoderRun : Event → Bool
  | .ffmpegRun _ => true
  | _ => false

/-- Whether an event is a temp-directory removal. -/
def Event.isTempRemoval : Event → Bool
  | .removeTempDir _ => true
  | _ => false

/-- Whether an event is an error log line. -/
def Event.isErrorLine : Event → Bool
  | .logError _ => true
  | _ => false

/-- Whether an event is a warning log line. -/
def Event.isWarningLine : Event → Bool
  | .logWarning _ => true
  | _ => false

/-- The viewport mutations of a trace, in order. -/
def mutationEvents (t : List Event) : List Event := t.filter Event.isViewportMutation

/-- The temp-directory removals of a trace, in order. -/
def tempRemovalEvents (t : List Event) : List Event := t.filter Event.isTempRemoval

/-- The visibility flag map of the current viewport, name by name. -/
def originFlagsOf (h : MayaState) : List (String × Bool) :=
  VIEWPORT_VISIBILITY_LOOKUP.map (fun it => (it.2, h.visFlag it.2))

/-- The data vector the capture flag map is built from. -/
def pbVisListOf (h : MayaState) (st : PBState) : List Bool :=
  if st.visibilityField = [] then origVisList h else st.visibilityField

/-- The capture flag map, in the runs where building it does not raise. -/
def pbFlagsOf (h : MayaState) (st : PBState) : List (String × Bool) :=
  (CreateViewportVisibilityFlags (pbVisListOf h st)).getD []

/-- The propositions checked by execute before any mutation, stated as
the branch conditions of the source. -/
def PassesChecks (h : MayaState) (st : PBState) (a : ExecArgs) : Prop :=
  (RequiresFfmpeg st && !(ValidateFfmpeg h st).1) = false ∧
  h.viewportActive = true ∧
  a.outputDir ≠ "" ∧
  a.fileName ≠ "" ∧
  (RequiresFfmpeg st && !a.overwrite && h.fileExists (finalOutputPath h st a)) = false ∧
  (GetResolutionWidthHeight h st).isSome = true ∧
  (GetStartEndFrame h st).isSome = true ∧
  h.cameras.contains (st.cameraField.getD h.activeCamera) = true

/-- An execute call reaches the viewport-mutation phase: every check
passes and both flag maps can be built. -/
def ReachesMutation (h : MayaState) (st : PBState) (a : ExecArgs) : Prop :=
  PassesChecks h st a ∧
    (st.visibilityField = [] ∨
      VIEWPORT_VISIBILITY_LOOKUP.length ≤ st.visibilityField.length)

/-! ### Flag-map lemmas -/

theorem createFlagsGo_map (l : List (String × String)) (f : String → Bool) :
    CreateFlagsGo l (l.map (fun it => f it.2)) = some (l.map (fun it => (it.2, f it.2))) := by
  induction l with
  | nil => rfl
  | cons x xs ih => simp [CreateFlagsGo, ih]

theorem createFlags_origVis (h : MayaState) :
    CreateViewportVisibilityFlags (origVisList h) = some (originFlagsOf h) :=
  createFlagsGo_map _ _

theorem createFlagsGo_none (l : List (String × String)) (v : List Bool)
    (hlt : v.length < l.length) : CreateFlagsGo l v = none := by
  induction l generalizing v with
  | nil => simp at hlt
  | cons x xs ih =>
    cases v with
    | nil => rfl
    | cons b bs =>
      have : CreateFlagsGo xs bs = none := ih bs (by simpa using hlt)
      simp [CreateFlagsGo, this]

theorem createFlagsGo_isSome (l : List (String × String)) (v : List Bool)
    (hle : l.length ≤ v.length) : (CreateFlagsGo l v).isSome = true := by
  induction l generalizing v with
  | nil => rfl
  | cons x xs ih =>
    cases v with
    | nil => simp at hle
    | cons b bs =>
      obtain ⟨t, ht⟩ := Option.isSome_iff_exists.mp (ih bs (by simpa using hle))
      simp [CreateFlagsGo, ht]

theorem createFlagsGo_keys (l : List (String × String)) (v : List Bool)
    (fl : List (String × Bool)) (he : CreateFlagsGo l v = some fl) :
    ∀ p ∈ fl, p.1 ∈ l.map (fun it => it.2) := by
  induction l generalizing v fl with
  | nil =>
    cases v <;> simp [CreateFlagsGo] at he <;> subst he <;> simp
  | cons x xs ih =>
    cases v with
    | nil => simp [CreateFlagsGo] at he
    | cons b bs =>
      rcases hrec : CreateFlagsGo xs bs with _ | t <;> rw [CreateFlagsGo, hrec] at he
      · simp at he
      · simp only [Option.some.injEq] at he
        intro p hp
        rw [← he] at hp
        rcases List.mem_cons.mp hp with hph | hpt
        · simp [hph]
        · simp [ih bs t hrec p hpt]

/-! ### Flag-application lemmas -/

theorem applyFlags_not_mem (flags : List (String × Bool)) (g : String → Bool) (n : String)
    (hn : ∀ p ∈ flags, p.1 ≠ n) : applyFlags flags g n = g n := by
  induction flags generalizing g with
  | nil => rfl
  | cons x xs ih =>
    have hx : x.1 ≠ n := hn x (by simp)
    rw [applyFlags, ih _ (fun p hp => hn p (by simp [hp]))]
    exact if_neg (fun hc => hx hc.symm)

theorem applyFlags_table (l : List (String × String)) (f g : String → Bool) (n : String) :
    applyFlags (l.map (fun it => (it.2, f it.2))) g n =
      if n ∈ l.map (fun it => it.2) then f n else g n := by
  induction l generalizing g with
  | nil => simp [applyFlags]
  | cons x xs ih =>
    rw [List.map_cons, applyFlags, ih]
    by_cases hmem : n ∈ xs.map (fun it => it.2)
    · simp [hmem]
    · by_cases hx : n = x.2
      · simp [hmem, hx]
      · simp [hmem, hx]

theorem applyFlags_restore (h0 : MayaState) (pbFlags : List (String × Bool))
    (hKeys : ∀ p ∈ pbFlags, p.1 ∈ VIEWPORT_VISIBILITY_LOOKUP.map (fun it => it.2))
    (n : String) :
    applyFlags (originFlagsOf h0) (applyFlags pbFlags h0.visFlag) n = h0.visFlag n := by
  rw [originFlagsOf, applyFlags_table]
  by_cases hmem : n ∈ VIEWPORT_VISIBILITY_LOOKUP.map (fun it => it.2)
  · simp [hmem]
  · rw [if_neg hmem]
    exact applyFlags_not_mem _ _ _ (fun p hp heq => hmem (heq ▸ hKeys p hp))

/-! ### Capture-bracket lemmas -/

theorem mcr_pbFailed (h : MayaState) (ov pb : Bool) (cam oc : String)
    (pf ofl : List (String × Bool)) (opts : PlayblastOptions) :
    (mutateCaptureRestore h ov pb cam oc pf ofl opts).2.2 = pb := rfl

theorem mcr_restores_host (h : MayaState) (ov pb : Bool) (cam oc : String)
    (pf : List (String × Bool)) (opts : PlayblastOptions)
    (hKeys : ∀ p ∈ pf, p.1 ∈ VIEWPORT_VISIBILITY_LOOKUP.map (fun it => it.2)) :
    (mutateCaptureRestore h ov pb cam oc pf (originFlagsOf h) opts).1.activeCamera = oc ∧
    (∀ n, (mutateCaptureRestore h ov pb cam oc pf (originFlagsOf h) opts).1.visFlag n
        = h.visFlag n) ∧
    (∀ n, (mutateCaptureRestore h ov pb cam oc pf (originFlagsOf h) opts).1.overscan n
        = h.overscan n) := by
  cases ov <;>
    refine ⟨rfl, fun n => applyFlags_restore h pf hKeys n, fun n => ?_⟩
  · have hred : (mutateCaptureRestore h false pb cam oc pf (originFlagsOf h) opts).1.overscan n
        = (if n = cam then h.overscan cam else if n = cam then (1 : ℚ) else h.overscan n) := rfl
    rw [hred]
    by_cases hn : n = cam <;> simp [hn]
  · rfl

theorem mcr_mutation_trace (h : MayaState) (ov pb : Bool) (cam oc : String)
    (pf ofl : List (String × Bool)) (opts : PlayblastOptions) :
    ((mutateCaptureRestore h ov pb cam oc pf ofl opts).2.1).filter Event.isViewportMutation =
      [.setActiveCamera cam, .setViewportVisibility pf]
        ++ (if ov then [] else [.setOverscan cam 1, .setOverscan cam (h.overscan cam)])
        ++ [.setActiveCamera oc, .setViewportVisibility ofl] := by
  cases ov <;> cases pb <;>
    simp [mutateCaptureRestore, Event.isViewportMutation,
      hostSetVisibility, hostSetActiveCamera, List.filter]

theorem mcr_no_temp (h : MayaState) (ov pb : Bool) (cam oc : String)
    (pf ofl : List (String × Bool)) (opts : PlayblastOptions) :
    ((mutateCaptureRestore h ov pb cam oc pf ofl opts).2.1).filter Event.isTempRemoval = [] := by
  cases ov <;> cases pb <;>
    simp [mutateCaptureRestore, Event.isTempRemoval, List.filter]

/-- The bracket leaves every non-viewport host field unchanged, so the
encode phase behaves on the restored host exactly as on the initial one. -/
theorem encodePhase_mcr (h : MayaState) (st : PBState) (a : ExecArgs) (ov pb : Bool)
    (cam oc : String) (pf ofl : List (String × Bool)) (opts : PlayblastOptions)
    (op dir sp : String) (sf : Int) :
    encodePhase (mutateCaptureRestore h ov pb cam oc pf ofl opts).1 st a op dir sp sf
      = encodePhase h st a op dir sp sf := by
  cases ov <;> rfl

/-! ### Encode-phase lemmas -/

theorem encodeh264_some_events (h : MayaState) (st : PBState) (sp op : String)
    (sf : Int) (pr : FfmpegCommand × List Event)
    (he : Encodeh264 h st sp op sf = some pr) :
    pr.2 = [.logOutput "ffmpeg command", .ffmpegRun pr.1] := by
  unfold Encodeh264 at he
  split at he
  · simp at he
  · split at he
    · simp at he
    · split at he
      · simp at he
      · simp only [Option.some.injEq] at he
        rw [← he]

theorem removeTempDir_filter_temp (h : MayaState) (d : String) :
    (RemoveTempDir h d).filter Event.isTempRemoval = [.removeTempDir d] := by
  by_cases hr : h.rmdirFails <;>
    simp [RemoveTempDir, Event.isTempRemoval, hr, List.filter]

theorem removeTempDir_filter_mut (h : MayaState) (d : String) :
    (RemoveTempDir h d).filter Event.isViewportMutation = [] := by
  by_cases hr : h.rmdirFails <;>
    simp [RemoveTempDir, Event.isViewportMutation, hr, List.filter]

theorem removeTempDir_any_warn (h : MayaState) (d : String) (hr : h.rmdirFails = true) :
    (RemoveTempDir h d).any Event.isWarningLine = true := by
  simp [RemoveTempDir, hr, Event.isWarningLine]

theorem openInViewer_filter_mut (h : MayaState) (p : String) :
    (OpenInViewer h p).filter Event.isViewportMutation = [] := by
  by_cases he : h.fileExists p <;>
    simp [OpenInViewer, Event.isViewportMutation, he, List.filter]

theorem openInViewer_filter_temp (h : MayaState) (p : String) :
    (OpenInViewer h p).filter Event.isTempRemoval = [] := by
  by_cases he : h.fileExists p <;>
    simp [OpenInViewer, Event.isTempRemoval, he, List.filter]

/-- The encode phase never mutates viewport state. -/
theorem encodePhase_no_mutation (h : MayaState) (st : PBState) (a : ExecArgs)
    (op dir sp : String) (sf : Int) :
    ((encodePhase h st a op dir sp sf).1).filter Event.isViewportMutation = [] := by
  unfold encodePhase
  cases hreq : RequiresFfmpeg st
  · simp
  · by_cases hh : st.encoderField = "h264"
    · rw [if_pos rfl, if_pos hh]
      rcases he : Encodeh264 h st sp op sf with _ | pr
      · simp
      · have hev := encodeh264_some_events h st sp op sf pr he
        by_cases hv : a.showInViewer = true <;>
          simp [hv, hev, List.filter_append, removeTempDir_filter_mut,
            openInViewer_filter_mut, Event.isViewportMutation, List.filter]
    · rw [if_pos rfl, if_neg hh]
      simp [List.filter_append, removeTempDir_filter_mut, Event.isViewportMutation,
        List.filter]

/-- When the encoder branch does not raise, the encode phase removes the
temp directory exactly once and returns; a failing rmdir adds a warning. -/
theorem encodePhase_success (h : MayaState) (st : PBState) (a : ExecArgs)
    (op dir sp : String) (sf : Int) (hreq : RequiresFfmpeg st = true)
    (henc : st.encoderField = "h264" → (Encodeh264 h st sp op sf).isSome = true) :
    ((encodePhase h st a op dir sp sf).1).filter Event.isTempRemoval = [.removeTempDir dir] ∧
    (encodePhase h st a op dir sp sf).2 = .returned ∧
    (h.rmdirFails = true → (encodePhase h st a op dir sp sf).1.any Event.isWarningLine = true) := by
  unfold encodePhase
  rw [hreq, if_pos rfl]
  by_cases hh : st.encoderField = "h264"
  · rw [if_pos hh]
    obtain ⟨pr, hpr⟩ := Option.isSome_iff_exists.mp (henc hh)
    rw [hpr]
    have hev := encodeh264_some_events h st sp op sf pr hpr
    by_cases hv : a.showInViewer = true <;>
      refine ⟨?_, ?_, fun hr => ?_⟩ <;>
        simp [hv, hev, List.filter_append, removeTempDir_filter_temp,
          openInViewer_filter_temp, Event.isTempRemoval, List.filter,
          List.any_append, Event.isWarningLine] <;>
        simp [RemoveTempDir, hr]
  · rw [if_neg hh]
    refine ⟨?_, ?_, fun hr => ?_⟩ <;>
      simp [List.filter_append, removeTempDir_filter_temp, Event.isTempRemoval,
        List.filter, List.any_append, Event.isWarningLine] <;>
      simp [RemoveTempDir, hr]

/-- When the h264 encoder raises (unsupported frame rate), the encode
phase raises and the temp directory is never removed. -/
theorem encodePhase_raises (h : MayaState) (st : PBState) (a : ExecArgs)
    (op dir sp : String) (sf : Int) (hreq : RequiresFfmpeg st = true)
    (hh : st.encoderField = "h264") (hnone : Encodeh264 h st sp op sf = none) :
    (encodePhase h st a op dir sp sf).1 = [] ∧
    (encodePhase h st a op dir sp sf).2 = .raised := by
  unfold encodePhase
  rw [hreq, if_pos rfl, if_pos hh, hnone]
  exact ⟨rfl, rfl⟩

/-! ### Reaching the mutation phase -/

theorem origVisList_setCam (h : MayaState) (c : String) :
    origVisList (hostSetActiveCamera h c) = origVisList h := rfl

theorem pbFlags_some (h : MayaState) (st : PBState)
    (hvis : st.visibilityField = [] ∨
      VIEWPORT_VISIBILITY_LOOKUP.length ≤ st.visibilityField.length) :
    CreateViewportVisibilityFlags (pbVisListOf h st) = some (pbFlagsOf h st) := by
  have hsome : (CreateViewportVisibilityFlags (pbVisListOf h st)).isSome = true := by
    by_cases hemp : st.visibilityField = []
    · rw [pbVisListOf, if_pos hemp, createFlags_origVis]
      rfl
    · rcases hvis with hv | hv
      · exact absurd hv hemp
      · rw [pbVisListOf, if_neg hemp]
        exact createFlagsGo_isSome _ _ hv
  obtain ⟨fl, hfl⟩ := Option.isSome_iff_exists.mp hsome
  rw [hfl, pbFlagsOf, hfl, Option.getD_some]

theorem pbFlags_keys (h : MayaState) (st : PBState)
    (hvis : st.visibilityField = [] ∨
      VIEWPORT_VISIBILITY_LOOKUP.length ≤ st.visibilityField.length) :
    ∀ p ∈ pbFlagsOf h st, p.1 ∈ VIEWPORT_VISIBILITY_LOOKUP.map (fun it => it.2) :=
  createFlagsGo_keys _ _ _ (pbFlags_some h st hvis)

/-- Under the reach-mutation preconditions, execute is exactly its
post-check body at the resolved parameters. -/
theorem execute_reach (h : MayaState) (st : PBState) (a : ExecArgs)
    (hr : ReachesMutation h st a) :
    execute h st a = capturedBody h st a ((GetResolutionWidthHeight h st).getD (0, 0))
      ((GetStartEndFrame h st).getD (0, 0)) (st.cameraField.getD h.activeCamera)
      (originFlagsOf h) (pbFlagsOf h st) := by
  obtain ⟨⟨hff, hvp, hod, hfn, how, hres, hse, hcam⟩, hvis⟩ := hr
  obtain ⟨wh, hwh⟩ := Option.isSome_iff_exists.mp hres
  obtain ⟨se, hse2⟩ := Option.isSome_iff_exists.mp hse
  have hpb := pbFlags_some h st hvis
  rw [pbVisListOf] at hpb
  unfold execute
  rw [hff, hvp, hwh, hse2, Option.getD_some, Option.getD_some]
  simp only [Bool.false_eq_true, if_false, Bool.not_true, if_neg hod, if_neg hfn, how,
    hcam, origVisList_setCam, createFlags_origVis, hpb]

/-- The final host of the post-check body is the bracket's restored host,
on both the capture-failure and the capture-success path. -/
theorem capturedBody_host (h : MayaState) (st : PBState) (a : ExecArgs) (wh se : Int × Int)
    (cam : String) (originFlags pbFlags : List (String × Bool)) :
    (capturedBody h st a wh se cam originFlags pbFlags).host =
      (mutateCaptureRestore h a.overscanArg h.playblastRaises cam h.activeCamera
        pbFlags originFlags (optsOf h st a wh se)).1 := by
  simp only [capturedBody]
  split <;> rfl

/-- The viewport mutations of the post-check body are exactly those of
the bracket, on both paths. -/
theorem capturedBody_mutation_trace (h : MayaState) (st : PBState) (a : ExecArgs)
    (wh se : Int × Int) (cam : String) (originFlags pbFlags : List (String × Bool)) :
    ((capturedBody h st a wh se cam originFlags pbFlags).trace).filter Event.isViewportMutation =
      ((mutateCaptureRestore h a.overscanArg h.playblastRaises cam h.activeCamera
        pbFlags originFlags (optsOf h st a wh se)).2.1).filter Event.isViewportMutation := by
  simp only [capturedBody]
  split
  · simp [List.filter, Event.isViewportMutation]
  · simp [List.filter, List.filter_append, encodePhase_no_mutation,
      Event.isViewportMutation]

/-! ## Claim theorems -/

/-- C1: whenever an execute call reaches the viewport-mutation phase
(camera switched, visibility applied, overscan forced), the original
camera, visibility vector and camera overscan are restored, and the
mutation trace shows the restoring writes exactly once, after the
mutating writes, on every exit path — in particular for both values of
the host's playblast-raises switch, which ReachesMutation leaves free. -/
theorem execute_restores_viewport_exactly_once (h : MayaState) (st : PBState) (a : ExecArgs)
    (hr : ReachesMutation h st a) :
    (execute h st a).host.activeCamera = h.activeCamera ∧
    (∀ n, (execute h st a).host.visFlag n = h.visFlag n) ∧
    (∀ n, (execute h st a).host.overscan n = h.overscan n) ∧
    mutationEvents (execute h st a).trace =
      [.setActiveCamera (st.cameraField.getD h.activeCamera),
       .setViewportVisibility (pbFlagsOf h st)]
        ++ (if a.overscanArg then []
            else [.setOverscan (st.cameraField.getD h.activeCamera) 1,
              .setOverscan (st.cameraField.getD h.activeCamera)
                (h.overscan (st.cameraField.getD h.activeCamera))])
        ++ [.setActiveCamera h.activeCamera, .setViewportVisibility (originFlagsOf h)] := by
  rw [execute_reach h st a hr]
  have hkeys := pbFlags_keys h st hr.2
  obtain ⟨hc, hv, ho⟩ := mcr_restores_host h a.overscanArg h.playblastRaises
    (st.cameraField.getD h.activeCamera) h.activeCamera (pbFlagsOf h st)
    (optsOf h st a ((GetResolutionWidthHeight h st).getD (0, 0))
      ((GetStartEndFrame h st).getD (0, 0))) hkeys
  have htr := mcr_mutation_trace h a.overscanArg h.playblastRaises
    (st.cameraField.getD h.activeCamera) h.activeCamera (pbFlagsOf h st) (originFlagsOf h)
    (optsOf h st a ((GetResolutionWidthHeight h st).getD (0, 0))
      ((GetStartEndFrame h st).getD (0, 0)))
  rw [mutationEvents, capturedBody_mutation_trace, htr]
  rw [capturedBody_host]
  exact ⟨hc, hv, ho, rfl⟩

/-- A no-side-effect abort: host untouched, normal return, no viewport
mutation, no capture call, no encoder run, no temp-directory removal (so
nothing was ever written under the temp path), and an error reported. -/
def AbortsCleanly (h : MayaState) (r : ExecResult) : Prop :=
  r.host = h ∧ r.outcome = .returned ∧
  r.trace.filter Event.isViewportMutation = [] ∧
  r.trace.filter Event.isCaptureCall = [] ∧
  r.trace.filter Event.isEncoderRun = [] ∧
  r.trace.filter Event.isTempRemoval = [] ∧
  r.trace.any Event.isErrorLine = true

theorem validateFfmpeg_false_logs (h : MayaState) (st : PBState)
    (hf : (ValidateFfmpeg h st).1 = false) :
    ∃ m, (ValidateFfmpeg h st).2 = [Event.logError m] := by
  revert hf
  unfold ValidateFfmpeg
  split
  · exact fun _ => ⟨_, rfl⟩
  · split
    · exact fun _ => ⟨_, rfl⟩
    · split
      · exact fun _ => ⟨_, rfl⟩
      · intro hf
        simp at hf

/-! ### Explicit results of the early-return branches -/

theorem execute_eq_ffmpeg_missing (h : MayaState) (st : PBState) (a : ExecArgs)
    (hc1 : (RequiresFfmpeg st && !(ValidateFfmpeg h st).1) = true) :
    execute h st a = { host := h,
                       trace := (ValidateFfmpeg h st).2 ++
                         [.logError "Ffmpeg executable is not configured. See script editor for details."],
                       outcome := .returned } := by
  unfold execute
  rw [hc1]
  rfl

theorem execute_eq_no_viewport (h : MayaState) (st : PBState) (a : ExecArgs)
    (hc1 : (RequiresFfmpeg st && !(ValidateFfmpeg h st).1) = false)
    (hvp : h.viewportActive = false) :
    execute h st a = { host := h,
                       trace := [.logError "Failed to get active view.",
                         .logError "An active viewport is not selected. Select a viewport and retry."],
                       outcome := .returned } := by
  unfold execute
  rw [hc1, hvp]
  rfl

theorem execute_eq_no_outdir (h : MayaState) (st : PBState) (a : ExecArgs)
    (hc1 : (RequiresFfmpeg st && !(ValidateFfmpeg h st).1) = false)
    (hvp : h.viewportActive = true) (hod : a.outputDir = "") :
    execute h st a = { host := h,
                       trace := [.logError "Output directory path not set"],
                       outcome := .returned } := by
  unfold execute
  rw [hc1, hvp, hod]
  rfl

theorem execute_eq_no_fname (h : MayaState) (st : PBState) (a : ExecArgs)
    (hc1 : (RequiresFfmpeg st && !(ValidateFfmpeg h st).1) = false)
    (hvp : h.viewportActive = true) (hod : a.outputDir ≠ "") (hfn : a.fileName = "") :
    execute h st a = { host := h,
                       trace := [.logError "Output file name not set"],
                       outcome := .returned } := by
  unfold execute
  rw [hc1, hvp, if_neg hod, hfn]
  rfl

theorem execute_eq_output_exists (h : MayaState) (st : PBState) (a : ExecArgs)
    (hc1 : (RequiresFfmpeg st && !(ValidateFfmpeg h st).1) = false)
    (hvp : h.viewportActive = true) (hod : a.outputDir ≠ "") (hfn : a.fileName ≠ "")
    (hc5 : (RequiresFfmpeg st && !a.overwrite && h.fileExists (finalOutputPath h st a)) = true) :
    execute h st a = { host := h,
                       trace := [.logError "Output file already exists. Eanble overwrite to ignore."],
                       outcome := .returned } := by
  unfold execute
  rw [hc1, hvp, if_neg hod, if_neg hfn, hc5]
  rfl

theorem execute_eq_camera_missing (h : MayaState) (st : PBState) (a : ExecArgs)
    (hc1 : (RequiresFfmpeg st && !(ValidateFfmpeg h st).1) = false)
    (hvp : h.viewportActive = true) (hod : a.outputDir ≠ "") (hfn : a.fileName ≠ "")
    (hc5 : (RequiresFfmpeg st && !a.overwrite && h.fileExists (finalOutputPath h st a)) = false)
    (wh se : Int × Int)
    (hwh : GetResolutionWidthHeight h st = some wh) (hse : GetStartEndFrame h st = some se)
    (hcam : h.cameras.contains (st.cameraField.getD h.activeCamera) = false) :
    execute h st a = { host := h,
                       trace := [.logOutput "Playblast options",
                         .logError ("Camera does not exist: " ++ st.cameraField.getD h.activeCamera)],
                       outcome := .returned } := by
  unfold execute
  rw [hc1, hvp, if_neg hod, if_neg hfn, hc5, hwh, hse]
  simp only [hcam]
  rfl

/-! ### Clean aborts of the precondition branches -/

theorem aborts_ffmpeg (h : MayaState) (st : PBState) (a : ExecArgs)
    (hc1 : (RequiresFfmpeg st && !(ValidateFfmpeg h st).1) = true) :
    AbortsCleanly h (execute h st a) := by
  have hval : (ValidateFfmpeg h st).1 = false := by
    have hx := hc1
    simp only [Bool.and_eq_true, Bool.not_eq_true'] at hx
    exact hx.2
  obtain ⟨m, hm⟩ := validateFfmpeg_false_logs h st hval
  rw [execute_eq_ffmpeg_missing h st a hc1]
  refine ⟨rfl, rfl, ?_, ?_, ?_, ?_, ?_⟩ <;>
    simp [hm, List.filter_append, List.any_append, List.filter, Event.isViewportMutation,
      Event.isCaptureCall, Event.isEncoderRun, Event.isTempRemoval, Event.isErrorLine]

theorem aborts_no_viewport (h : MayaState) (st : PBState) (a : ExecArgs)
    (hvp : h.viewportActive = false) : AbortsCleanly h (execute h st a) := by
  by_cases hc1 : (RequiresFfmpeg st && !(ValidateFfmpeg h st).1) = true
  · exact aborts_ffmpeg h st a hc1
  · rw [execute_eq_no_viewport h st a (by simpa using hc1) hvp]
    refine ⟨rfl, rfl, ?_, ?_, ?_, ?_, ?_⟩ <;>
      simp [List.filter, Event.isViewportMutation, Event.isCaptureCall, Event.isEncoderRun,
        Event.isTempRemoval, Event.isErrorLine]

theorem aborts_no_outdir (h : MayaState) (st : PBState) (a : ExecArgs)
    (hod : a.outputDir = "") : AbortsCleanly h (execute h st a) := by
  by_cases hc1 : (RequiresFfmpeg st && !(ValidateFfmpeg h st).1) = true
  · exact aborts_ffmpeg h st a hc1
  · by_cases hvp : h.viewportActive = true
    · rw [execute_eq_no_outdir h st a (by simpa using hc1) hvp hod]
      refine ⟨rfl, rfl, ?_, ?_, ?_, ?_, ?_⟩ <;>
        simp [List.filter, Event.isViewportMutation, Event.isCaptureCall, Event.isEncoderRun,
          Event.isTempRemoval, Event.isErrorLine]
    · exact aborts_no_viewport h st a (by simpa using hvp)

theorem aborts_no_fname (h : MayaState) (st : PBState) (a : ExecArgs)
    (hfn : a.fileName = "") : AbortsCleanly h (execute h st a) := by
  by_cases hc1 : (RequiresFfmpeg st && !(ValidateFfmpeg h st).1) = true
  · exact aborts_ffmpeg h st a hc1
  · by_cases hvp : h.viewportActive = true
    · by_cases hod : a.outputDir = ""
      · exact aborts_no_outdir h st a hod
      · rw [execute_eq_no_fname h st a (by simpa using hc1) hvp hod hfn]
        refine ⟨rfl, rfl, ?_, ?_, ?_, ?_, ?_⟩ <;>
          simp [List.filter, Event.isViewportMutation, Event.isCaptureCall, Event.isEncoderRun,
            Event.isTempRemoval, Event.isErrorLine]
    · exact aborts_no_viewport h st a (by simpa using hvp)

theorem aborts_output_exists (h : MayaState) (st : PBState) (a : ExecArgs)
    (hreq : RequiresFfmpeg st = true) (hov : a.overwrite = false)
    (hex : h.fileExists (finalOutputPath h st a) = true) :
    AbortsCleanly h (execute h st a) := by
  by_cases hc1 : (RequiresFfmpeg st && !(ValidateFfmpeg h st).1) = true
  · exact aborts_ffmpeg h st a hc1
  · by_cases hvp : h.viewportActive = true
    · by_cases hod : a.outputDir = ""
      · exact aborts_no_outdir h st a hod
      · by_cases hfn : a.fileName = ""
        · exact aborts_no_fname h st a hfn
        · rw [execute_eq_output_exists h st a (by simpa using hc1) hvp hod hfn
            (by simp [hreq, hov, hex])]
          refine ⟨rfl, rfl, ?_, ?_, ?_, ?_, ?_⟩ <;>
            simp [List.filter, Event.isViewportMutation, Event.isCaptureCall,
              Event.isEncoderRun, Event.isTempRemoval, Event.isErrorLine]
    · exact aborts_no_viewport h st a (by simpa using hvp)

/-! ### Concrete fixtures used by the witnesses -/

/-- A concrete host: an active viewport through "persp", two cameras, all
categories visible, overscan 1.3 everywhere, playback range 1..100, film
time unit, an existing ffmpeg binary, no audio, a well-behaved playblast
and rmdir. -/
def sampleHost : MayaState :=
  { cameras := ["persp", "camA"]
    viewportActive := true
    activeCamera := "persp"
    visFlag := fun _ => true
    overscan := fun _ => 13 / 10
    renderWidth := 1920
    renderHeight := 1080
    renderStart := 1
    renderEnd := 10
    playbackMin := 1
    playbackMax := 100
    animStart := 0
    animEnd := 200
    timeUnit := "film"
    fileExists := fun p => p == "/usr/bin/ffmpeg"
    isDir := fun _ => false
    projectDir := "/proj"
    sceneName := "scene"
    soundNode := none
    playblastRaises := false
    rmdirFails := false }

/-- A concrete configuration equal to the constructor defaults of the
source class, with the ffmpeg path set. -/
def sampleState : PBState :=
  { ffmpegPath := "/usr/bin/ffmpeg"
    cameraField := none
    resolutionPresetField := some "HD 1080"
    widthHeight := (1920, 1080)
    frameRangePresetField := some "Playback"
    startFrame := 1
    endFrame := 100
    visibilityField := []
    containerFormat := "mov"
    encoderField := "h264"
    h264Quality := "High"
    h264PresetField := "fast"
    imageQuality := 100 }

/-- Concrete execute arguments. -/
def sampleArgs : ExecArgs := { outputDir := "/out", fileName := "shot" }

/-- The sample host with the final output file already on disk. -/
def existsHost : MayaState :=
  { sampleHost with fileExists := fun p => p == "/usr/bin/ffmpeg" || p == "/out/shot.mov" }

/-- C5: when the container requires the encoder and the encoder path is
unset, nonexistent or a directory (ValidateFfmpeg false), or when no
viewport is active, or the output directory or file name is empty,
execute reports an error and aborts with no side effects: the host is
untouched and there is no viewport mutation, no capture call, no encoder
run, and no temp-directory activity. -/
theorem preconditions_abort_without_side_effects :
    (∀ (h : MayaState) (st : PBState) (a : ExecArgs),
      RequiresFfmpeg st = true → (ValidateFfmpeg h st).1 = false →
      AbortsCleanly h (execute h st a)) ∧
    (∀ (h : MayaState) (st : PBState) (a : ExecArgs),
      h.viewportActive = false → AbortsCleanly h (execute h st a)) ∧
    (∀ (h : MayaState) (st : PBState) (a : ExecArgs),
      a.outputDir = "" → AbortsCleanly h (execute h st a)) ∧
    (∀ (h : MayaState) (st : PBState) (a : ExecArgs),
      a.fileName = "" → AbortsCleanly h (execute h st a)) :=
  ⟨fun h st a hreq hval => aborts_ffmpeg h st a (by simp [hreq, hval]),
   aborts_no_viewport, aborts_no_outdir, aborts_no_fname⟩

/-- Witness for C5: a missing encoder path on a compressed container
aborts cleanly at a concrete input. -/
theorem preconditions_abort_without_side_effects_witness :
    RequiresFfmpeg { sampleState with ffmpegPath := "" } = true ∧
    (ValidateFfmpeg sampleHost { sampleState with ffmpegPath := "" }).1 = false ∧
    AbortsCleanly sampleHost (execute sampleHost { sampleState with ffmpegPath := "" } sampleArgs) :=
  ⟨by decide, by decide,
   preconditions_abort_without_side_effects.1 sampleHost
     { sampleState with ffmpegPath := "" } sampleArgs (by decide) (by decide)⟩

/-- C6: with overwrite disabled and the final output file already
present, execute fails before any viewport mutation and before the
capture primitive, leaves the host (and so the existing file) untouched,
and a repeated invocation behaves identically. -/
theorem overwrite_disabled_existing_output_aborts (h : MayaState) (st : PBState)
    (a : ExecArgs) (hreq : RequiresFfmpeg st = true) (hov : a.overwrite = false)
    (hex : h.fileExists (finalOutputPath h st a) = true) :
    AbortsCleanly h (execute h st a) ∧
    execute (execute h st a).host st a = execute h st a := by
  have hab := aborts_output_exists h st a hreq hov hex
  exact ⟨hab, by rw [hab.1]⟩

/-- Witness for C6 at a concrete input with the output file on disk. -/
theorem overwrite_disabled_existing_output_aborts_witness :
    RequiresFfmpeg sampleState = true ∧
    sampleArgs.overwrite = false ∧
    existsHost.fileExists (finalOutputPath existsHost sampleState sampleArgs) = true ∧
    AbortsCleanly existsHost (execute existsHost sampleState sampleArgs) ∧
    execute (execute existsHost sampleState sampleArgs).host sampleState sampleArgs
      = execute existsHost sampleState sampleArgs :=
  ⟨by decide, rfl, by decide,
   (overwrite_disabled_existing_output_aborts existsHost sampleState sampleArgs
     (by decide) rfl (by decide)).1,
   (overwrite_disabled_existing_output_aborts existsHost sampleState sampleArgs
     (by decide) rfl (by decide)).2⟩

/-- Witness for C1: the sample input reaches the mutation phase, and the
restoration conclusions hold there. -/
theorem execute_restores_viewport_exactly_once_witness :
    ReachesMutation sampleHost sampleState sampleArgs ∧
    (execute sampleHost sampleState sampleArgs).host.activeCamera = sampleHost.activeCamera ∧
    (execute sampleHost sampleState sampleArgs).host.visFlag "grid" = sampleHost.visFlag "grid" ∧
    (execute sampleHost sampleState sampleArgs).host.overscan "persp" = sampleHost.overscan "persp" :=
  ⟨by unfold ReachesMutation PassesChecks; decide,
   (execute_restores_viewport_exactly_once sampleHost sampleState sampleArgs
     (by unfold ReachesMutation PassesChecks; decide)).1,
   (execute_restores_viewport_exactly_once sampleHost sampleState sampleArgs
     (by unfold ReachesMutation PassesChecks; decide)).2.1 "grid",
   (execute_restores_viewport_exactly_once sampleHost sampleState sampleArgs
     (by unfold ReachesMutation PassesChecks; decide)).2.2.1 "persp"⟩

/-- C9: for every explicit pair of positive integers, SetResolution then
GetResolutionWidthHeight round-trips exactly, against any live host at
set or get time. -/
theorem setResolution_roundtrip (h h2 : MayaState) (st : PBState) (w hh : Int)
    (hw : 0 < w) (hh2 : 0 < hh) :
    GetResolutionWidthHeight h2 (SetResolution h st (.pair w hh)).1 = some (w, hh) := by
  simp only [SetResolution]
  rw [if_neg (show ¬(w ≤ 0 ∨ hh ≤ 0) by omega)]
  rfl

/-- Witness for C9 at 640 x 480. -/
theorem setResolution_roundtrip_witness :
    0 < (640 : Int) ∧ 0 < (480 : Int) ∧
    GetResolutionWidthHeight sampleHost
      (SetResolution sampleHost sampleState (.pair 640 480)).1 = some (640, 480) :=
  ⟨by decide, by decide,
   setResolution_roundtrip sampleHost sampleHost sampleState 640 480 (by decide) (by decide)⟩

/-- C8: a stored preset is resolved against the live host at every get
call: after SetResolution "Render" the getter returns the render
settings of the host passed at get time, and after SetFrameRange
"Playback" the getter returns the playback range of the host passed at
get time — so changing the host changes the next result. -/
theorem preset_getters_resolve_lazily :
    (∀ (h h2 : MayaState) (st : PBState), 0 < h.renderWidth → 0 < h.renderHeight →
      GetResolutionWidthHeight h2 (SetResolution h st (.presetName "Render")).1
        = some (h2.renderWidth, h2.renderHeight)) ∧
    (∀ (h h2 : MayaState) (st : PBState),
      GetStartEndFrame h2 (SetFrameRange h st (.presetName "Playback")).1
        = some (h2.playbackMin, h2.playbackMax)) := by
  constructor
  · intro h h2 st hw hh
    have hno : ¬(h.renderWidth ≤ 0 ∨ h.renderHeight ≤ 0) := by omega
    simp [SetResolution, PresetToResolution, GetResolutionWidthHeight, hno]
  · intro h h2 st
    simp [SetFrameRange, ResolveFrameRange, PresetToFrameRange, GetStartEndFrame,
      FRAME_RANGE_PRESETS]

/-- Witness for C8: playback preset resolves to the live range 1..100,
to 5..50 after the host range changes, and the render preset follows the
live render settings. -/
theorem preset_getters_resolve_lazily_witness :
    0 < sampleHost.renderWidth ∧ 0 < sampleHost.renderHeight ∧
    GetStartEndFrame sampleHost
      (SetFrameRange sampleHost sampleState (.presetName "Playback")).1 = some (1, 100) ∧
    GetStartEndFrame { sampleHost with playbackMin := 5, playbackMax := 50 }
      (SetFrameRange sampleHost sampleState (.presetName "Playback")).1 = some (5, 50) ∧
    GetResolutionWidthHeight { sampleHost with renderWidth := 640, renderHeight := 480 }
      (SetResolution sampleHost sampleState (.presetName "Render")).1 = some (640, 480) :=
  ⟨by decide, by decide,
   preset_getters_resolve_lazily.2 sampleHost sampleHost sampleState,
   preset_getters_resolve_lazily.2 sampleHost
     { sampleHost with playbackMin := 5, playbackMax := 50 } sampleState,
   preset_getters_resolve_lazily.1 sampleHost
     { sampleHost with renderWidth := 640, renderHeight := 480 } sampleState
     (by decide) (by decide)⟩

theorem encodeh264_some_cmd (h : MayaState) (st : PBState) (sp op : String) (sf : Int)
    (pr : FfmpegCommand × List Event) (fr : ℚ)
    (hfr : GetFrameRate h = some fr) (he : Encodeh264 h st sp op sf = some pr) :
    ∃ q, H264_QUALITIES.find? (fun x => x.1 == st.h264Quality) = some q ∧
      pr.1 = ffmpegCmdOf h st sp op sf fr q.2 := by
  unfold Encodeh264 at he
  split at he
  · simp at he
  · rename_i fr2 heq
    rw [hfr] at heq
    injection heq with heq2
    subst heq2
    split at he
    · simp at he
    · split at he
      · simp at he
      · rename_i q hq
        simp only [Option.some.injEq] at he
        exact ⟨q, hq, by rw [← he]⟩

/-- C7: when a sound node with an existing file is attached, the audio
seek offset placed in the encoder command equals
(startFrame - audioFrameOffset) / frameRate exactly. -/
theorem audio_offset_formula (h : MayaState) (st : PBState) (sp op : String) (sf : Int)
    (fp : String) (off fr : ℚ) (cmd : FfmpegCommand) (evs : List Event)
    (hsn : h.soundNode = some (fp, off)) (hex : h.fileExists fp = true)
    (hfr : GetFrameRate h = some fr)
    (he : Encodeh264 h st sp op sf = some (cmd, evs)) :
    cmd.audio = some (((sf : ℚ) - off) / fr, fp) := by
  obtain ⟨q, hq, hcmd⟩ := encodeh264_some_cmd h st sp op sf (cmd, evs) fr hfr he
  rw [show cmd = ffmpegCmdOf h st sp op sf fr q.2 from hcmd]
  unfold ffmpegCmdOf
  simp [GetAudioAttributes, hsn, hex, GetAudioOffsetInSec]

/-- The sample host with a sound node whose file exists on disk. -/
def audioHost : MayaState :=
  { sampleHost with
      soundNode := some ("/a.wav", 0),
      fileExists := fun p => p == "/usr/bin/ffmpeg" || p == "/a.wav" }

/-- Witness for C7: start frame 24, audio frame offset 0, frame rate 24
give a seek offset of exactly one second. -/
theorem audio_offset_formula_witness :
    audioHost.soundNode = some ("/a.wav", 0) ∧
    audioHost.fileExists "/a.wav" = true ∧
    GetFrameRate audioHost = some 24 ∧
    (ffmpegCmdOf audioHost sampleState "src" "out" 24 24 20).audio
      = some (((24 : ℚ) - 0) / 24, "/a.wav") ∧
    ((24 : ℚ) - 0) / 24 = 1 :=
  ⟨rfl, by decide, by decide,
   audio_offset_formula audioHost sampleState "src" "out" 24 "/a.wav" 0 24
     (ffmpegCmdOf audioHost sampleState "src" "out" 24 24 20)
     [.logOutput "ffmpeg command",
      .ffmpegRun (ffmpegCmdOf audioHost sampleState "src" "out" 24 24 20)]
     rfl (by decide) (by decide) rfl,
   by norm_num⟩

/-- C10: SetVisibility stores any explicit vector verbatim with no
length check; any vector shorter than the 37-category table makes
CreateViewportVisibilityFlags index past its end; and an execute call
that passes every precondition with such a stored vector raises out of
the flag-map construction. -/
theorem short_visibility_overflow :
    (∀ (st : PBState) (v : List Bool), (SetVisibility st (.vector v)).1.visibilityField = v) ∧
    (∀ v : List Bool, v.length < VIEWPORT_VISIBILITY_LOOKUP.length →
      CreateViewportVisibilityFlags v = none) ∧
    (∀ (h : MayaState) (st : PBState) (a : ExecArgs), PassesChecks h st a →
      st.visibilityField ≠ [] →
      st.visibilityField.length < VIEWPORT_VISIBILITY_LOOKUP.length →
      (execute h st a).outcome = .raised) := by
  refine ⟨fun st v => rfl, fun v hv => createFlagsGo_none _ _ hv, ?_⟩
  intro h st a hp hne hlen
  obtain ⟨hff, hvp, hod, hfn, how, hres, hse, hcam⟩ := hp
  obtain ⟨wh, hwh⟩ := Option.isSome_iff_exists.mp hres
  obtain ⟨se, hse2⟩ := Option.isSome_iff_exists.mp hse
  have hnone : CreateViewportVisibilityFlags st.visibilityField = none :=
    createFlagsGo_none _ _ hlen
  unfold execute
  rw [hff, hvp, hwh, hse2]
  simp only [Bool.false_eq_true, if_false, Bool.not_true, if_neg hod, if_neg hfn, how,
    hcam, origVisList_setCam, createFlags_origVis, if_neg hne, hnone]

/-- Witness for C10: a stored two-entry vector raises at a concrete
input that passes every precondition. -/
theorem short_visibility_overflow_witness :
    PassesChecks sampleHost { sampleState with visibilityField := [true, false] } sampleArgs ∧
    ({ sampleState with visibilityField := [true, false] } : PBState).visibilityField ≠ [] ∧
    ({ sampleState with visibilityField := [true, false] } : PBState).visibilityField.length
      < VIEWPORT_VISIBILITY_LOOKUP.length ∧
    (execute sampleHost { sampleState with visibilityField := [true, false] } sampleArgs).outcome
      = .raised :=
  ⟨by unfold PassesChecks; decide, by decide, by decide,
   short_visibility_overflow.2.2 sampleHost
     { sampleState with visibilityField := [true, false] } sampleArgs
     (by unfold PassesChecks; decide) (by decide) (by decide)⟩

/-! ### C2: invalid setter inputs -/

/-- One call of a configuration setter, as the claim quantifies over
"every configuration setter". -/
inductive SetterCall where
  | resolution (r : ResolutionInput)
  | frameRange (fr : FrameRangeInput)
  | visibility (s : String)
  | encoding (c e : String)
  | h264 (q p : String)
  | image (q : Int)
  | camera (c : String)

/-- Apply one setter call to the stored configuration. -/
def applySetter (h : MayaState) (st : PBState) : SetterCall → PBState × List Event
  | .resolution r => SetResolution h st r
  | .frameRange fr => SetFrameRange h st fr
  | .visibility s => SetVisibility st (.presetName s)
  | .encoding c e => SetEncoding st c e
  | .h264 q p => Seth264Settings st q p
  | .image q => SetImageSettings st q
  | .camera c => SetCamera h st (some c)

/-- The invalid inputs the claim enumerates: non-positive or non-integer
resolution, unrecognized preset name, nonexistent camera name, unknown
container/encoder pairing, out-of-range quality. -/
def InvalidInput (h : MayaState) : SetterCall → Prop
  | .resolution (.presetName s) => ¬ s ∈ RESOLUTION_LOOKUP_KEYS
  | .resolution (.pair w hh) => w ≤ 0 ∨ hh ≤ 0
  | .resolution .pairNonInt => True
  | .resolution .badValue => True
  | .frameRange (.presetName s) => ¬ s ∈ FRAME_RANGE_PRESETS
  | .frameRange (.pair _ _) => False
  | .frameRange .badValue => True
  | .visibility s => s ≠ "" ∧ ¬ s ∈ VIEWPORT_VISIBILITY_PRESETS.map (fun x => x.1)
  | .encoding c e => ∀ pr ∈ VIDEO_ENCODER_LOOKUP, pr.1 = c → ¬ e ∈ pr.2
  | .h264 q p => ¬ q ∈ H264_QUALITIES.map (fun x => x.1) ∨ ¬ p ∈ H264_PRESETS
  | .image q => ¬ (0 < q ∧ q ≤ 100)
  | .camera c => ¬ c ∈ h.cameras

/-- What the source actually leaves behind after an invalid call: the
state unchanged, except that SetResolution clears the stored preset name
and SetCamera resets the stored camera to None. -/
def stateAfterInvalid (st : PBState) : SetterCall → PBState
  | .resolution _ => { st with resolutionPresetField := none }
  | .camera _ => { st with cameraField := none }
  | _ => st

/-- C2 counterexample: SetCamera with a nonexistent camera name reports
an error but does not leave the previously stored camera unchanged — it
resets the field from some "camA" to none. -/
theorem setter_preserves_counterexample :
    (SetCamera sampleHost { sampleState with cameraField := some "camA" }
      (some "noSuchCam")).1.cameraField = none ∧
    ({ sampleState with cameraField := some "camA" } : PBState).cameraField = some "camA" ∧
    ((SetCamera sampleHost { sampleState with cameraField := some "camA" }
      (some "noSuchCam")).2.any Event.isErrorLine) = true := by
  decide

/-- C2 amended: every invalid setter input logs an error; the frame
range, visibility, encoding, h264 and image setters leave the stored
configuration entirely unchanged, while SetResolution additionally
clears the stored preset name and SetCamera resets the stored camera
to None. -/
theorem invalid_setter_preserves (h : MayaState) (st : PBState) (call : SetterCall)
    (hin : InvalidInput h call) :
    (applySetter h st call).1 = stateAfterInvalid st call ∧
    (applySetter h st call).2.any Event.isErrorLine = true := by
  cases call with
  | resolution r =>
    cases r with
    | presetName s =>
      have hs : s ≠ "Render" ∧ s ≠ "HD 1080" ∧ s ≠ "HD 720" ∧ s ≠ "HD 540" := by
        simpa [InvalidInput, RESOLUTION_LOOKUP_KEYS] using hin
      have hp : PresetToResolution h s = none := by
        simp [PresetToResolution, hs.1, hs.2.1, hs.2.2.1, hs.2.2.2]
      simp [applySetter, SetResolution, hp, stateAfterInvalid, Event.isErrorLine]
    | pair w hh =>
      have hle : w ≤ 0 ∨ hh ≤ 0 := hin
      simp [applySetter, SetResolution, stateAfterInvalid, if_pos hle, Event.isErrorLine]
    | pairNonInt =>
      simp [applySetter, SetResolution, stateAfterInvalid, Event.isErrorLine]
    | badValue =>
      simp [applySetter, SetResolution, stateAfterInvalid, Event.isErrorLine]
  | frameRange fr =>
    cases fr with
    | presetName s =>
      have hs : s ≠ "Render" ∧ s ≠ "Playback" ∧ s ≠ "Animation" := by
        simpa [InvalidInput, FRAME_RANGE_PRESETS] using hin
      have hp : PresetToFrameRange h s = none := by
        simp [PresetToFrameRange, hs.1, hs.2.1, hs.2.2]
      simp [applySetter, SetFrameRange, ResolveFrameRange, hp, stateAfterInvalid,
        Event.isErrorLine]
    | pair x y => exact hin.elim
    | badValue =>
      simp [applySetter, SetFrameRange, ResolveFrameRange, stateAfterInvalid,
        Event.isErrorLine]
  | visibility s =>
    obtain ⟨hs0, hsn⟩ := hin
    have hs : s ≠ "Viewport" ∧ s ≠ "Geo" ∧ s ≠ "Dynamics" := by
      simpa [VIEWPORT_VISIBILITY_PRESETS] using hsn
    obtain ⟨h1, h2, h3⟩ := hs
    have b1 : ("Viewport" == s) = false := by simpa using Ne.symm h1
    have b2 : ("Geo" == s) = false := by simpa using Ne.symm h2
    have b3 : ("Dynamics" == s) = false := by simpa using Ne.symm h3
    have hf : VIEWPORT_VISIBILITY_PRESETS.find? (fun x => x.1 == s) = none := by
      simp [VIEWPORT_VISIBILITY_PRESETS, List.find?, b1, b2, b3]
    simp [applySetter, SetVisibility, hs0, PresetToVisibility, hf, stateAfterInvalid,
      Event.isErrorLine]
  | encoding c e =>
    rcases hf : VIDEO_ENCODER_LOOKUP.find? (fun x => x.1 == c) with _ | pr
    · simp [applySetter, SetEncoding, hf, stateAfterInvalid, Event.isErrorLine]
    · have hmem : pr ∈ VIDEO_ENCODER_LOOKUP := List.mem_of_find?_eq_some hf
      have hpc : pr.1 = c := by
        have := List.find?_some hf
        simpa [beq_iff_eq] using this
      have hne : ¬ e ∈ pr.2 := hin pr hmem hpc
      simp [applySetter, SetEncoding, hf, hne, stateAfterInvalid, Event.isErrorLine]
  | h264 q p =>
    rcases hin with hq | hp
    · simp [applySetter, Seth264Settings, hq, stateAfterInvalid, Event.isErrorLine]
    · by_cases hq2 : q ∈ H264_QUALITIES.map (fun x => x.1)
      · simp [applySetter, Seth264Settings, hq2, hp, stateAfterInvalid, Event.isErrorLine]
      · simp [applySetter, Seth264Settings, hq2, stateAfterInvalid, Event.isErrorLine]
  | image q =>
    have hq : ¬ (0 < q ∧ q ≤ 100) := hin
    simp [applySetter, SetImageSettings, hq, stateAfterInvalid, Event.isErrorLine]
  | camera c =>
    have hc : ¬ c ∈ h.cameras := hin
    simp [applySetter, SetCamera, hc, stateAfterInvalid, Event.isErrorLine]

/-- Witness for the amended C2 at a concrete invalid image quality. -/
theorem invalid_setter_preserves_witness :
    InvalidInput sampleHost (.image 0) ∧
    (applySetter sampleHost sampleState (.image 0)).1 = stateAfterInvalid sampleState (.image 0) ∧
    (applySetter sampleHost sampleState (.image 0)).2.any Event.isErrorLine = true :=
  ⟨by unfold InvalidInput; decide,
   (invalid_setter_preserves sampleHost sampleState (.image 0)
     (by unfold InvalidInput; decide)).1,
   (invalid_setter_preserves sampleHost sampleState (.image 0)
     (by unfold InvalidInput; decide)).2⟩

/-! ### C3 and C4 support -/

theorem mcr_no_warning (h : MayaState) (ov pb : Bool) (cam oc : String)
    (pf ofl : List (String × Bool)) (opts : PlayblastOptions) :
    ((mutateCaptureRestore h ov pb cam oc pf ofl opts).2.1).any Event.isWarningLine = false := by
  cases ov <;> cases pb <;>
    simp [mutateCaptureRestore, Event.isWarningLine, List.any_append]

/-- When the capture succeeded, the post-check body forwards the encode
phase: same outcome, same temp-removal events, same warnings. -/
theorem capturedBody_success (h : MayaState) (st : PBState) (a : ExecArgs)
    (wh se : Int × Int) (cam : String) (originFlags pbFlags : List (String × Bool))
    (hok : h.playblastRaises = false) :
    (capturedBody h st a wh se cam originFlags pbFlags).outcome =
      (encodePhase h st a (finalOutputPath h st a) (tempDirPath h a)
        (sourcePattern h a (effectivePadding a.padding)) se.1).2 ∧
    ((capturedBody h st a wh se cam originFlags pbFlags).trace).filter Event.isTempRemoval =
      ((encodePhase h st a (finalOutputPath h st a) (tempDirPath h a)
        (sourcePattern h a (effectivePadding a.padding)) se.1).1).filter Event.isTempRemoval ∧
    ((capturedBody h st a wh se cam originFlags pbFlags).trace).any Event.isWarningLine =
      ((encodePhase h st a (finalOutputPath h st a) (tempDirPath h a)
        (sourcePattern h a (effectivePadding a.padding)) se.1).1).any Event.isWarningLine := by
  have hsplit : capturedBody h st a wh se cam originFlags pbFlags =
      { host := (mutateCaptureRestore h a.overscanArg h.playblastRaises cam h.activeCamera
          pbFlags originFlags (optsOf h st a wh se)).1,
        trace := .logOutput "Playblast options" ::
          ((mutateCaptureRestore h a.overscanArg h.playblastRaises cam h.activeCamera
            pbFlags originFlags (optsOf h st a wh se)).2.1 ++
           (encodePhase (mutateCaptureRestore h a.overscanArg h.playblastRaises cam
              h.activeCamera pbFlags originFlags (optsOf h st a wh se)).1 st a
              (finalOutputPath h st a) (tempDirPath h a)
              (sourcePattern h a (effectivePadding a.padding)) se.1).1),
        outcome := (encodePhase (mutateCaptureRestore h a.overscanArg h.playblastRaises cam
            h.activeCamera pbFlags originFlags (optsOf h st a wh se)).1 st a
            (finalOutputPath h st a) (tempDirPath h a)
            (sourcePattern h a (effectivePadding a.padding)) se.1).2 } := by
    simp only [capturedBody]
    rw [mcr_pbFailed, hok]
    rfl
  rw [hsplit, encodePhase_mcr]
  refine ⟨rfl, ?_, ?_⟩
  · simp only [List.filter_cons, List.filter_append, mcr_no_temp]
    simp [Event.isTempRemoval]
  · simp only [List.any_cons, List.any_append, mcr_no_warning]
    simp [Event.isWarningLine]

/-- When the capture primitive raised, the post-check body returns after
restoration without touching the temp path. -/
theorem capturedBody_failed (h : MayaState) (st : PBState) (a : ExecArgs)
    (wh se : Int × Int) (cam : String) (originFlags pbFlags : List (String × Bool))
    (hpb : h.playblastRaises = true) :
    (capturedBody h st a wh se cam originFlags pbFlags).outcome = .returned ∧
    ((capturedBody h st a wh se cam originFlags pbFlags).trace).filter
      Event.isTempRemoval = [] := by
  simp only [capturedBody]
  rw [mcr_pbFailed, hpb]
  exact ⟨rfl, by simp [mcr_no_temp, Event.isTempRemoval, List.filter]⟩

theorem encodeh264_none_of_frNone (h : MayaState) (st : PBState) (sp op : String)
    (sf : Int) (hfr : GetFrameRate h = none) : Encodeh264 h st sp op sf = none := by
  unfold Encodeh264
  rw [hfr]

theorem encodePhase_not_req (h : MayaState) (st : PBState) (a : ExecArgs)
    (op dir sp : String) (sf : Int) (hreq : RequiresFfmpeg st = false) :
    encodePhase h st a op dir sp sf = ([], .returned) := by
  unfold encodePhase
  rw [hreq]
  rfl

/-- The configuration invariants every state reachable through the
setters at defaults satisfies: stored presets are valid names, the
stored visibility vector (when used) covers the categories, and the
stored h264 quality is a known name. -/
def WellFormedPB (st : PBState) : Prop :=
  (∀ p, st.resolutionPresetField = some p → p ∈ RESOLUTION_LOOKUP_KEYS) ∧
  (∀ p, st.frameRangePresetField = some p → p ∈ FRAME_RANGE_PRESETS) ∧
  (st.visibilityField = [] ∨
    VIEWPORT_VISIBILITY_LOOKUP.length ≤ st.visibilityField.length) ∧
  st.h264Quality ∈ H264_QUALITIES.map (fun x => x.1)

theorem getResolution_isSome_of_wf (h : MayaState) (st : PBState)
    (hwf : ∀ p, st.resolutionPresetField = some p → p ∈ RESOLUTION_LOOKUP_KEYS) :
    (GetResolutionWidthHeight h st).isSome = true := by
  rcases hp : st.resolutionPresetField with _ | p
  · simp [GetResolutionWidthHeight, hp]
  · have hmem := hwf p hp
    simp [RESOLUTION_LOOKUP_KEYS] at hmem
    rcases hmem with h1 | h1 | h1 | h1 <;> subst h1 <;>
      simp [GetResolutionWidthHeight, hp, PresetToResolution]

theorem getRange_isSome_of_wf (h : MayaState) (st : PBState)
    (hwf : ∀ p, st.frameRangePresetField = some p → p ∈ FRAME_RANGE_PRESETS) :
    (GetStartEndFrame h st).isSome = true := by
  rcases hp : st.frameRangePresetField with _ | p
  · simp [GetStartEndFrame, hp]
  · have hmem := hwf p hp
    simp [FRAME_RANGE_PRESETS] at hmem
    rcases hmem with h1 | h1 | h1 <;> subst h1 <;>
      simp [GetStartEndFrame, hp, PresetToFrameRange]

theorem encodeh264_isSome (h : MayaState) (st : PBState) (sp op : String) (sf : Int)
    (hfr : (GetFrameRate h).isSome = true)
    (hz : (GetAudioAttributes h).isSome = true → ¬ GetFrameRate h = some 0)
    (hq : st.h264Quality ∈ H264_QUALITIES.map (fun x => x.1)) :
    (Encodeh264 h st sp op sf).isSome = true := by
  obtain ⟨fr, hfr2⟩ := Option.isSome_iff_exists.mp hfr
  have hfind : (H264_QUALITIES.find? (fun x => x.1 == st.h264Quality)).isSome = true := by
    simp [H264_QUALITIES] at hq
    rcases hq with h1 | h1 | h1 | h1 <;> rw [h1] <;> decide
  obtain ⟨q, hq2⟩ := Option.isSome_iff_exists.mp hfind
  have hcond : ¬((GetAudioAttributes h).isSome = true ∧ fr = 0) := by
    rintro ⟨ha, rfl⟩
    exact hz ha hfr2
  simp [Encodeh264, hfr2, hcond, hq2]

/-- C3: for every execute call that reaches a successful capture with a
compressed container, the temp directory is removed exactly once
whatever the encode outcome (the h264 encoder ran — exit status is not
even inspected — or the stored encoder was unsupported), the call
returns, and a failing rmdir surfaces as a warning without changing the
outcome. -/
theorem temp_dir_removed_regardless (h : MayaState) (st : PBState) (a : ExecArgs)
    (hr : ReachesMutation h st a) (hok : h.playblastRaises = false)
    (hreq : RequiresFfmpeg st = true)
    (henc : st.encoderField = "h264" →
      (Encodeh264 h st (sourcePattern h a (effectivePadding a.padding))
        (finalOutputPath h st a) ((GetStartEndFrame h st).getD (0, 0)).1).isSome = true) :
    ((execute h st a).trace).filter Event.isTempRemoval
      = [.removeTempDir (tempDirPath h a)] ∧
    (execute h st a).outcome = .returned ∧
    (h.rmdirFails = true → (execute h st a).trace.any Event.isWarningLine = true) := by
  rw [execute_reach h st a hr]
  obtain ⟨ho1, ho2, ho3⟩ := capturedBody_success h st a
    ((GetResolutionWidthHeight h st).getD (0, 0)) ((GetStartEndFrame h st).getD (0, 0))
    (st.cameraField.getD h.activeCamera) (originFlagsOf h) (pbFlagsOf h st) hok
  have hep := encodePhase_success h st a (finalOutputPath h st a) (tempDirPath h a)
    (sourcePattern h a (effectivePadding a.padding))
    ((GetStartEndFrame h st).getD (0, 0)).1 hreq henc
  exact ⟨ho2.trans hep.1, ho1.trans hep.2.1, fun hrm => by rw [ho3]; exact hep.2.2 hrm⟩

/-- Witness for C3 at the sample input: the temp directory under the
resolved output directory is removed exactly once and execute returns. -/
theorem temp_dir_removed_regardless_witness :
    ReachesMutation sampleHost sampleState sampleArgs ∧
    sampleHost.playblastRaises = false ∧
    RequiresFfmpeg sampleState = true ∧
    ((execute sampleHost sampleState sampleArgs).trace).filter Event.isTempRemoval
      = [.removeTempDir (tempDirPath sampleHost sampleArgs)] ∧
    (execute sampleHost sampleState sampleArgs).outcome = .returned :=
  ⟨by unfold ReachesMutation PassesChecks; decide, rfl, by decide,
   (temp_dir_removed_regardless sampleHost sampleState sampleArgs
     (by unfold ReachesMutation PassesChecks; decide) rfl (by decide)
     (fun _ => by decide)).1,
   (temp_dir_removed_regardless sampleHost sampleState sampleArgs
     (by unfold ReachesMutation PassesChecks; decide) rfl (by decide)
     (fun _ => by decide)).2.1⟩

/-- C4 counterexample: with host time unit "sec" (a real Maya unit the
frame-rate table does not know), an otherwise well-configured execute
call lets the RuntimeError escape — the outcome is raised, not a logged
early return — and the temp directory is never removed. -/
theorem execute_raises_on_unknown_time_unit :
    (execute { sampleHost with timeUnit := "sec" } sampleState sampleArgs).outcome
      = .raised ∧
    ((execute { sampleHost with timeUnit := "sec" } sampleState sampleArgs).trace).filter
      Event.isTempRemoval = [] := by
  decide

/-- C4 amended: every failure up to and including capture is converted
into a logged error and an early return (for a well-formed stored
configuration), but an unrecognized host time unit during frame-rate
resolution raises an exception that escapes execute — after viewport
restoration, before temp-directory cleanup. -/
theorem failures_logged_except_frame_rate :
    (∀ (h : MayaState) (st : PBState) (a : ExecArgs), WellFormedPB st →
      (GetFrameRate h).isSome = true →
      ((GetAudioAttributes h).isSome = true → ¬ GetFrameRate h = some 0) →
      (execute h st a).outcome = .returned) ∧
    (∀ (h : MayaState) (st : PBState) (a : ExecArgs), ReachesMutation h st a →
      h.playblastRaises = false → RequiresFfmpeg st = true →
      st.encoderField = "h264" → GetFrameRate h = none →
      (execute h st a).outcome = .raised ∧
      ((execute h st a).trace).filter Event.isTempRemoval = []) := by
  constructor
  · intro h st a hwf hfr hz
    obtain ⟨hwf1, hwf2, hwf3, hwf4⟩ := hwf
    by_cases hc1 : (RequiresFfmpeg st && !(ValidateFfmpeg h st).1) = true
    · exact (aborts_ffmpeg h st a hc1).2.1
    · by_cases hvp : h.viewportActive = true
      · by_cases hod : a.outputDir = ""
        · exact (aborts_no_outdir h st a hod).2.1
        · by_cases hfn : a.fileName = ""
          · exact (aborts_no_fname h st a hfn).2.1
          · by_cases hc5 : (RequiresFfmpeg st && !a.overwrite
                && h.fileExists (finalOutputPath h st a)) = true
            · have hx := hc5
              simp only [Bool.and_eq_true, Bool.not_eq_true'] at hx
              exact (aborts_output_exists h st a hx.1.1 hx.1.2 hx.2).2.1
            · have hres := getResolution_isSome_of_wf h st hwf1
              have hse := getRange_isSome_of_wf h st hwf2
              by_cases hcam : h.cameras.contains (st.cameraField.getD h.activeCamera) = true
              · have hrm : ReachesMutation h st a :=
                  ⟨⟨by simpa using hc1, hvp, hod, hfn, by simpa using hc5,
                    hres, hse, hcam⟩, hwf3⟩
                rw [execute_reach h st a hrm]
                by_cases hpb : h.playblastRaises = true
                · exact (capturedBody_failed h st a _ _ _ _ _ hpb).1
                · have hok : h.playblastRaises = false := by simpa using hpb
                  rw [(capturedBody_success h st a
                    ((GetResolutionWidthHeight h st).getD (0, 0))
                    ((GetStartEndFrame h st).getD (0, 0))
                    (st.cameraField.getD h.activeCamera)
                    (originFlagsOf h) (pbFlagsOf h st) hok).1]
                  by_cases hreq : RequiresFfmpeg st = true
                  · by_cases hh : st.encoderField = "h264"
                    · exact (encodePhase_success h st a _ _ _ _ hreq
                        (fun _ => encodeh264_isSome h st _ _ _ hfr hz hwf4)).2.1
                    · exact (encodePhase_success h st a _ _ _ _ hreq
                        (fun hcontra => absurd hcontra hh)).2.1
                  · rw [encodePhase_not_req h st a _ _ _ _ (by simpa using hreq)]
              · obtain ⟨wh, hwh⟩ := Option.isSome_iff_exists.mp hres
                obtain ⟨se2, hse2⟩ := Option.isSome_iff_exists.mp hse
                rw [execute_eq_camera_missing h st a (by simpa using hc1) hvp hod hfn
                  (by simpa using hc5) wh se2 hwh hse2 (by simpa using hcam)]
      · exact (aborts_no_viewport h st a (by simpa using hvp)).2.1
  · intro h st a hr hok hreq hh hfr
    rw [execute_reach h st a hr]
    obtain ⟨ho1, ho2, ho3⟩ := capturedBody_success h st a
      ((GetResolutionWidthHeight h st).getD (0, 0)) ((GetStartEndFrame h st).getD (0, 0))
      (st.cameraField.getD h.activeCamera) (originFlagsOf h) (pbFlagsOf h st) hok
    have hnone := encodeh264_none_of_frNone h st
      (sourcePattern h a (effectivePadding a.padding)) (finalOutputPath h st a)
      ((GetStartEndFrame h st).getD (0, 0)).1 hfr
    have hep := encodePhase_raises h st a (finalOutputPath h st a) (tempDirPath h a)
      (sourcePattern h a (effectivePadding a.padding))
      ((GetStartEndFrame h st).getD (0, 0)).1 hreq hh hnone
    constructor
    · rw [ho1, hep.2]
    · rw [ho2, hep.1]
      rfl

/-- Witness for the amended C4: a well-formed configuration with a
recognized time unit returns normally. -/
theorem failures_logged_except_frame_rate_witness :
    WellFormedPB sampleState ∧ (GetFrameRate sampleHost).isSome = true ∧
    (execute sampleHost sampleState sampleArgs).outcome = .returned :=
  have hwf : WellFormedPB sampleState := by
    refine ⟨fun p hp => ?_, fun p hp => ?_, Or.inl rfl, by decide⟩
    · simp only [sampleState] at hp
      injection hp with h1
      subst h1
      decide
    · simp only [sampleState] at hp
      injection hp with h1
      subst h1
      decide
  ⟨hwf, by decide,
   failures_logged_except_frame_rate.1 sampleHost sampleState sampleArgs hwf
     (by decide) (by decide)⟩

end GSPlayblast
